import Mathlib

/-! # Country travel guide: directory client and listing controller

A shallow embedding of

* `frontend/src/pages/services/CountryServices.js` (`formatCountry` and the four
  lookups built on `axios.get`),
* `frontend/src/components/CountryTable.jsx` (`fetchFiltered`, `fetchCountries`, the
  debounced effect and the pagination controls),
* `backend/server.js` (the signup, login and protected routes),
* `backend/gemini_route.js` (the country-guide route), and
* the storage and navigation effects of `frontend/src/pages/Home.jsx`,
  `frontend/src/components/Header.jsx`, `frontend/src/pages/Login.jsx` and
  `frontend/src/pages/Signup.jsx`.

JavaScript values that can arrive in a JSON response body are modelled by `JSValue`.
An object is held as the list of its own properties in the order they were inserted,
which for a parsed response body is the order in which upstream wrote them; the order
in which JavaScript enumerates them (array-index keys first, ascending) is computed by
`JSValue.enumeratedValues`.  Numbers are modelled by integers (population counts);
strings by `String`, with `jsLength` counting UTF-16 code units as
`String.prototype.length` does.
-/

namespace CountryGuide

/-! ## JavaScript values -/

/-- The values a parsed JSON body can hold, plus `undefined` (the result of reading
a property that is not there). -/
inductive JSValue where
  | undefined
  | null
  | bool (b : Bool)
  | num (n : Int)
  | str (s : String)
  | arr (xs : List JSValue)
  | obj (ps : List (String × JSValue))
  deriving Repr, Inhabited

/-- What a rejected promise or a `throw` carries. -/
inductive JSError where
  /-- A `TypeError` raised by the language (reading a property of `undefined` or
  `null`, calling something that is not a function). -/
  | typeError
  /-- The rejection of `axios.get` (network error, non-2xx status). -/
  | transport (reason : String)
  deriving Repr, DecidableEq, Inhabited

namespace JSValue

/-- JavaScript `ToBoolean`. -/
def truthy : JSValue → Bool
  | undefined => false
  | null => false
  | bool b => b
  | num n => n != 0
  | str s => s != ""
  | arr _ => true
  | obj _ => true

/-- Tests `v === undefined || v === null`. -/
def isNullish : JSValue → Bool
  | undefined => true
  | null => true
  | _ => false

/-- The expression `a || b`. -/
def or (a b : JSValue) : JSValue :=
  if a.truthy then a else b

/-- Own property lookup in the property list of an object. -/
def lookup (key : String) : List (String × JSValue) → JSValue
  | [] => undefined
  | (k, v) :: rest => if k == key then v else lookup key rest

/-- The expression `v.key` for a key that is neither an array index, `length`, nor
a member of a built-in prototype (`name`, `common`, `population`, `region`,
`languages`, `flags`, `png`, `capital`).  Reading a property of `undefined` or `null`
throws a `TypeError`; primitives and arrays have no such property. -/
def member (v : JSValue) (key : String) : Except JSError JSValue :=
  match v with
  | undefined => .error .typeError
  | null => .error .typeError
  | obj ps => .ok (lookup key ps)
  | _ => .ok undefined

/-- The expression `v?.key` (same keys as `member`): `undefined` when `v` is nullish. -/
def optMember (v : JSValue) (key : String) : JSValue :=
  match v with
  | obj ps => lookup key ps
  | _ => undefined

/-- The element read `v[i]` on a non-nullish value: the `i`-th element of an array,
the `i`-th character of a string (as a one-character string), the property named by
the decimal form of `i` on an object, and `undefined` otherwise.  The string case is
exact for strings whose characters all lie in the Basic Multilingual Plane: beyond it
JavaScript counts UTF-16 code units and yields surrogate halves, which a `String`
cannot hold. -/
def index (v : JSValue) (i : Nat) : JSValue :=
  match v with
  | arr xs => xs.getD i undefined
  | str s => match s.toList.get? i with
    | some c => str c.toString
    | none => undefined
  | obj ps => lookup (toString i) ps
  | _ => undefined

/-- The expression `v?.[i]`: `undefined` when `v` is nullish, `v[i]` otherwise. -/
def optIndex (v : JSValue) (i : Nat) : JSValue :=
  if v.isNullish then undefined else index v i

/-- The expression `v[i]`, throwing on `undefined` and `null`. -/
def indexE (v : JSValue) (i : Nat) : Except JSError JSValue :=
  if v.isNullish then .error .typeError else .ok (index v i)

/-- The array index a property key denotes, if any: a canonical decimal numeral (no
sign, no leading zero) below `2 ^ 32 - 1`. -/
def arrayIndex? (key : String) : Option Nat :=
  match key.toList with
  | [] => none
  | c :: cs =>
    if (c :: cs).all Char.isDigit && (c != '0' || cs.isEmpty) then
      if (c :: cs).foldl (fun acc d => 10 * acc + (d.toNat - 48)) 0 < 2 ^ 32 - 1 then
        some ((c :: cs).foldl (fun acc d => 10 * acc + (d.toNat - 48)) 0)
      else none
    else none

/-- Insertion of an indexed property into a list sorted by ascending index. -/
def insertByIndex (e : Nat × JSValue) : List (Nat × JSValue) → List (Nat × JSValue)
  | [] => [e]
  | x :: xs => if e.1 ≤ x.1 then e :: x :: xs else x :: insertByIndex e xs

/-- Indexed properties by ascending index. -/
def sortByIndex : List (Nat × JSValue) → List (Nat × JSValue)
  | [] => []
  | e :: es => insertByIndex e (sortByIndex es)

/-- The values of the own properties of an object in the order JavaScript enumerates
them: first the properties whose key is an array index, by ascending index, then the
other properties in the order they were inserted. -/
def enumeratedValues (ps : List (String × JSValue)) : List JSValue :=
  (sortByIndex (ps.filterMap fun p => (arrayIndex? p.1).map fun i => (i, p.2))).map
      Prod.snd ++
    (ps.filter fun p => (arrayIndex? p.1).isNone).map Prod.snd

/-- `Object.values(v)` for a non-nullish `v`: own enumerable property values in
enumeration order.  The string case (one entry per character) is exact for strings
whose characters all lie in the Basic Multilingual Plane. -/
def objectValues : JSValue → List JSValue
  | obj ps => enumeratedValues ps
  | arr xs => xs
  | str s => s.toList.map fun c => str c.toString
  | _ => []

mutual
/-- JavaScript `ToString` on a JSON value. -/
def toJSString : JSValue → String
  | undefined => "undefined"
  | null => "null"
  | bool b => if b then "true" else "false"
  | num n => toString n
  | str s => s
  | arr xs => joinWith "," xs
  | obj _ => "[object Object]"
/-- `Array.prototype.join(sep)`: `undefined` and `null` elements give the empty
string, every other element its `ToString`. -/
def joinWith (sep : String) : List JSValue → String
  | [] => ""
  | [x] => if x.isNullish then "" else toJSString x
  | x :: y :: rest =>
    (if x.isNullish then "" else toJSString x) ++ sep ++ joinWith sep (y :: rest)
end

end JSValue

open JSValue

/-! ## `CountryServices.js` -/

/-- The constant `BASE_URL`. -/
def BASE_URL : String := "https://restcountries.com/v3.1"

/-- The object literal built by `formatCountry`, with its six properties in the
order the source writes them. -/
structure Country where
  name : JSValue
  population : JSValue
  region : JSValue
  languages : JSValue
  flag : JSValue
  capital : JSValue
  deriving Repr, Inhabited

/-- The mapper `formatCountry`.  Each `country.key` read throws a `TypeError` when
`country` is `undefined` or `null` (so the first one, `country.name`, decides); the
reads have no side effect, so they are bound first and the six properties are then
computed from them exactly as the object literal does. -/
def formatCountry (country : JSValue) : Except JSError Country := do
  let name ← member country "name"
  let population ← member country "population"
  let region ← member country "region"
  let languages ← member country "languages"
  let flags ← member country "flags"
  let capital ← member country "capital"
  pure {
    name := (optMember name "common").or (str "N/A")
    population := population.or (str "N/A")
    region := region.or (str "N/A")
    languages :=
      if languages.truthy then str (joinWith ", " (objectValues languages))
      else str "N/A"
    flag := (optMember flags "png").or (str "N/A")
    capital := (optIndex capital 0).or (str "N/A") }

/-- The HTTP layer: `axios.get(url)` either resolves with a response, of which the
services read only `res.data`, or rejects. -/
abbrev AxiosGet := String → Except JSError JSValue

/-- The call `res.data.map(formatCountry)`: only an array has a `map` method; on any
other value the call raises a `TypeError`.  The callback is applied left to right and
the first exception aborts the traversal. -/
def mapFormatCountry (data : JSValue) : Except JSError (List Country) :=
  match data with
  | arr xs => xs.mapM formatCountry
  | _ => .error .typeError

/-- The `try { ... } catch (err) { console.error(...); throw err; }` wrapper shared by
the four services: the error is logged to the console and thrown again unchanged. -/
def rethrow {α : Type} (body : Except JSError α) : Except JSError α :=
  match body with
  | .ok v => .ok v
  | .error err => .error err

/-- Service `getAllCountries`: `GET /all`. -/
def getAllCountries (get : AxiosGet) : Except JSError (List Country) :=
  rethrow do
    let data ← get (BASE_URL ++ "/all")
    mapFormatCountry data

/-- Service `getCountryByName`: `GET /name/{name}`. -/
def getCountryByName (get : AxiosGet) (name : String) : Except JSError (List Country) :=
  rethrow do
    let data ← get (BASE_URL ++ "/name/" ++ name)
    mapFormatCountry data

/-- Service `getCountriesByRegion`: `GET /region/{region}`. -/
def getCountriesByRegion (get : AxiosGet) (region : String) :
    Except JSError (List Country) :=
  rethrow do
    let data ← get (BASE_URL ++ "/region/" ++ region)
    mapFormatCountry data

/-- Service `getCountryByCode`: `GET /alpha/{code}`, then `formatCountry(res.data[0])`. -/
def getCountryByCode (get : AxiosGet) (code : String) : Except JSError Country :=
  rethrow do
    let data ← get (BASE_URL ++ "/alpha/" ++ code)
    formatCountry (← indexE data 0)

/-! ## Strings as the listing controller uses them -/

/-- The code points `String.prototype.trim` strips: ECMAScript `WhiteSpace`
(TAB, VT, FF, SP, NBSP, ZWNBSP and the Unicode space separators) and
`LineTerminator` (LF, CR, LS, PS). -/
def isJSWhitespace (c : Char) : Bool :=
  let n := c.toNat
  n == 0x9 || n == 0xA || n == 0xB || n == 0xC || n == 0xD || n == 0x20 ||
  n == 0xA0 || n == 0x1680 || (0x2000 ≤ n && n ≤ 0x200A) || n == 0x2028 ||
  n == 0x2029 || n == 0x202F || n == 0x205F || n == 0x3000 || n == 0xFEFF

/-- The characters of `s.trim()`: leading and trailing white space removed. -/
def jsTrimChars (cs : List Char) : List Char :=
  ((cs.dropWhile isJSWhitespace).reverse.dropWhile isJSWhitespace).reverse

/-- The method `String.prototype.trim`. -/
def jsTrim (s : String) : String :=
  String.mk (jsTrimChars s.toList)

/-- The property `String.prototype.length`: the number of UTF-16 code units, two for
every character outside the Basic Multilingual Plane. -/
def jsLength (s : String) : Nat :=
  (s.toList.map fun c => if c.toNat < 0x10000 then 1 else 2).sum

/-! ## `CountryTable.jsx`: the listing query -/

/-- The constant `ITEMS_PER_PAGE`. -/
def ITEMS_PER_PAGE : Nat := 5

/-- The component state held by the four `useState` hooks. -/
structure TableState where
  countries : List Country
  searchTerm : String
  region : String
  currentPage : Int
  deriving Repr, Inhabited

/-- The state `useState` initialises: `[]`, `""`, `"All"`, `1`. -/
def TableState.initial : TableState :=
  { countries := [], searchTerm := "", region := "All", currentPage := 1 }

/-- The four functions the component imports from `CountryServices`, each given by
the outcome of awaiting it: a value, or the rejection. -/
structure Services where
  getAllCountries : Except JSError (List Country)
  getCountryByName : String → Except JSError (List Country)
  getCountriesByRegion : String → Except JSError (List Country)
  getCountryByCode : String → Except JSError Country

/-- The services of `CountryServices.js` over a given HTTP layer. -/
def axiosServices (get : AxiosGet) : Services :=
  { getAllCountries := getAllCountries get
    getCountryByName := getCountryByName get
    getCountriesByRegion := getCountriesByRegion get
    getCountryByCode := getCountryByCode get }

/-- One invocation of a service, with its argument. -/
inductive Lookup where
  | all
  | byName (name : String)
  | byRegion (region : String)
  | byCode (code : String)
  deriving Repr, DecidableEq, Inhabited

/-- The outcome of running a query: the component state once every `set...` call has
been applied, and the service invocations made, in order. -/
structure Run where
  state : TableState
  calls : List Lookup
  deriving Repr, Inhabited

/-- The function `fetchCountries`: awaits `getAllCountries()` and stores the result;
its own `catch` only logs to the console, so a failure leaves the state as it was and
nothing is thrown to the caller. -/
def fetchCountries (svc : Services) (st : TableState) : Run :=
  match svc.getAllCountries with
  | .ok result => { state := { st with countries := result }, calls := [.all] }
  | .error _ => { state := st, calls := [.all] }

/-- The function `fetchFiltered` of the second effect, run on the `searchTerm` and
`region` of the current state.  The `catch` of its `try` block covers the three awaited
lookups; `fetchCountries()` is called without `await` and never rejects. -/
def fetchFiltered (svc : Services) (st : TableState) : Run :=
  if jsTrim st.searchTerm != "" then
    if jsLength (jsTrim st.searchTerm) ≤ 3 then
      match svc.getCountryByCode (jsTrim st.searchTerm) with
      | .ok result =>
        { state := { st with countries := [result], currentPage := 1 }
          calls := [.byCode (jsTrim st.searchTerm)] }
      | .error _ =>
        { state := { st with countries := [] }
          calls := [.byCode (jsTrim st.searchTerm)] }
    else
      match svc.getCountryByName (jsTrim st.searchTerm) with
      | .ok result =>
        { state := { st with countries := result, currentPage := 1 }
          calls := [.byName (jsTrim st.searchTerm)] }
      | .error _ =>
        { state := { st with countries := [] }
          calls := [.byName (jsTrim st.searchTerm)] }
  else if st.region != "All" then
    match svc.getCountriesByRegion st.region with
    | .ok result =>
      { state := { st with countries := result, currentPage := 1 }
        calls := [.byRegion st.region] }
    | .error _ =>
      { state := { st with countries := [] }
        calls := [.byRegion st.region] }
  else
    fetchCountries svc st

/-! ## `CountryTable.jsx`: pagination -/

/-- The expression `Math.ceil(a / b)` on a non-negative integer `a` and a positive
integer `b` (exact in double precision for every array length). -/
def jsCeilDiv (a b : Nat) : Nat :=
  (a + (b - 1)) / b

/-- The method `Array.prototype.slice(start, end)`: a negative argument counts from the
end of the array, both are clamped to `0 .. length`, and the result runs from the
clamped start up to, not including, the clamped end. -/
def jsSlice {α : Type} (xs : List α) (start stop : Int) : List α :=
  let len : Int := xs.length
  let k : Int := if start < 0 then max (len + start) 0 else min start len
  let final : Int := if stop < 0 then max (len + stop) 0 else min stop len
  (xs.drop k.toNat).take (final - k).toNat

/-- The constant `totalPages`. -/
def totalPages (st : TableState) : Int :=
  (jsCeilDiv st.countries.length ITEMS_PER_PAGE : Nat)

/-- The constant `startIndex`. -/
def startIndex (st : TableState) : Int :=
  (st.currentPage - 1) * ITEMS_PER_PAGE

/-- The constant `paginatedCountries`: the rows the table body renders. -/
def paginatedCountries (st : TableState) : List Country :=
  jsSlice st.countries (startIndex st) (startIndex st + ITEMS_PER_PAGE)

/-- The `disabled` attribute of the "Previous" button. -/
def previousDisabled (st : TableState) : Bool :=
  st.currentPage == 1

/-- The `disabled` attribute of the "Next" button. -/
def nextDisabled (st : TableState) : Bool :=
  st.currentPage == totalPages st

/-! ## `CountryTable.jsx`: the debounced effect

The second `useEffect` has the dependencies `[searchTerm, region]`.  Whenever one of
them takes a new value React runs the cleanup of the previous run
(`clearTimeout(delay)`) and then the effect again (`setTimeout(() => fetchFiltered(),
300)`).  Time is counted in milliseconds; a lookup is taken to complete at once. -/

/-- The delay passed to `setTimeout`. -/
def DEBOUNCE_MS : Nat := 300

/-- A change event of one of the two inputs: `setSearchTerm(e.target.value)` or
`setRegion(e.target.value)`. -/
inductive InputChange where
  | search (value : String)
  | region (value : String)
  deriving Repr, DecidableEq, Inhabited

/-- A change event and the time at which it happens. -/
structure TimedChange where
  time : Nat
  change : InputChange
  deriving Repr, DecidableEq, Inhabited

/-- The component together with its timer: the component state, the expiry time of
the timer that has been set and neither cleared nor fired, and the lookups made so
far. -/
structure Debounced where
  table : TableState
  pending : Option Nat
  calls : List Lookup
  deriving Repr, Inhabited

/-- The state setter called by the change event. -/
def setInput (st : TableState) : InputChange → TableState
  | .search value => { st with searchTerm := value }
  | .region value => { st with region := value }

/-- Whether the setter gives the state variable a new value.  If it does not, React
skips the render and the effect is not run again. -/
def changesInput (st : TableState) : InputChange → Bool
  | .search value => value != st.searchTerm
  | .region value => value != st.region

/-- The pending timer fires: `fetchFiltered` runs on the current inputs. -/
def expire (svc : Services) (s : Debounced) : Debounced :=
  match s.pending with
  | none => s
  | some _ =>
    { table := (fetchFiltered svc s.table).state
      pending := none
      calls := s.calls ++ (fetchFiltered svc s.table).calls }

/-- Time passes up to `now`: a pending timer whose expiry time has been reached
fires. -/
def advance (svc : Services) (now : Nat) (s : Debounced) : Debounced :=
  match s.pending with
  | none => s
  | some due => if due ≤ now then expire svc s else s

/-- A change event at time `now`: when it alters its input, the cleanup clears the
pending timer and the effect sets a new one expiring `DEBOUNCE_MS` later. -/
def onChange (svc : Services) (s : Debounced) (e : TimedChange) : Debounced :=
  if changesInput (advance svc e.time s).table e.change then
    { table := setInput (advance svc e.time s).table e.change
      pending := some (e.time + DEBOUNCE_MS)
      calls := (advance svc e.time s).calls }
  else advance svc e.time s

/-- A sequence of change events, in the order they happen. -/
def runChanges (svc : Services) (s : Debounced) (events : List TimedChange) : Debounced :=
  events.foldl (onChange svc) s

/-- The inputs after a sequence of change events. -/
def applyInputs (st : TableState) (events : List TimedChange) : TableState :=
  events.foldl (fun t e => setInput t e.change) st

/-- Every event of the sequence alters its input at the moment it happens (as long as
no lookup runs in between). -/
def everyChangeAlters : TableState → List TimedChange → Bool
  | _, [] => true
  | st, e :: rest => changesInput st e.change && everyChangeAlters (setInput st e.change) rest

/-- Each event follows the previous one, which happened at `time`, by less than
`DEBOUNCE_MS`. -/
def closelySpaced : Nat → List TimedChange → Bool
  | _, [] => true
  | time, e :: rest =>
    decide (time ≤ e.time) && decide (e.time < time + DEBOUNCE_MS) && closelySpaced e.time rest

/-! ## `server.js`

The handlers are modelled on request bodies whose `username` and `password` are
strings or absent.  The libraries the file imports are parameters (`AuthDeps`); the
`User` collection is a list of documents obeying the schema the file declares. -/

/-- What `res.send(text)` or `res.json(value)` writes. -/
inductive Body where
  | text (s : String)
  | json (v : JSValue)
  deriving Repr, Inhabited

/-- A response: the status set by `res.status` (200 when it is not called) and the
body. -/
structure Response where
  status : Nat
  body : Body
  deriving Repr, Inhabited

/-- How a handler ends: it sends a response, or its promise rejects with an error that
no `catch` of the handler handles, in which case the handler sends nothing. -/
inductive Outcome where
  | responded (r : Response)
  | rejected (message : String)
  deriving Repr, Inhabited

/-- A document of the `User` model: `_id`, `username` and `password` (the hash). -/
structure UserDoc where
  id : String
  username : String
  password : String
  deriving Repr, DecidableEq, Inhabited

/-- The `User` collection. -/
abbrev CredentialStore := List UserDoc

/-- The destructured `req.body` of the signup and login routes. -/
structure Credentials where
  username : Option String
  password : Option String
  deriving Repr, DecidableEq, Inhabited

/-- The imported library functions, with the arguments the file fixes already applied:
`hash(password, 10)` and `compare(password, hash)` of bcryptjs on strings,
`sign({ id, username }, JWT_SECRET, { expiresIn: '1h' })` and
`verify(token, JWT_SECRET)` of jsonwebtoken (`none` when it throws), and the `_id`
mongoose gives a new document. -/
structure AuthDeps where
  hash : String → String
  compare : String → String → Bool
  sign : String → String → String
  verify : String → Option JSValue
  newId : CredentialStore → String

/-- An operation on the `User` collection. -/
inductive StoreOp where
  | findOne (username : Option String)
  | save (username : Option String)
  deriving Repr, DecidableEq, Inhabited

/-- What running a handler leaves behind: its outcome, the collection, and the
operations it performed on the collection, in order. -/
structure HandlerResult where
  outcome : Outcome
  store : CredentialStore
  ops : List StoreOp
  deriving Repr, Inhabited

/-- The query `User.findOne({ username })`: the first document whose username is
exactly the given string.  An absent username queries for documents without one, and
the schema (`required: true`) admits none. -/
def findOne (store : CredentialStore) (username : Option String) : Option UserDoc :=
  match username with
  | none => none
  | some u => store.find? fun doc => doc.username == u

/-- The call `new User({ username, password }).save()` under the declared schema:
both paths are required (an absent or empty string fails validation), `username` is
unique, and a valid document is appended to the collection. -/
def save (deps : AuthDeps) (store : CredentialStore) (username : Option String)
    (password : String) : Except String (UserDoc × CredentialStore) :=
  match username with
  | none => .error "User validation failed: username: Path `username` is required."
  | some u =>
    if u = "" then .error "User validation failed: username: Path `username` is required."
    else if password = "" then
      .error "User validation failed: password: Path `password` is required."
    else if store.any (fun doc => doc.username == u) then
      .error "E11000 duplicate key error"
    else
      .ok ({ id := deps.newId store, username := u, password := password },
        store ++ [{ id := deps.newId store, username := u, password := password }])

/-- The handler of `POST /signup`. -/
def signup (deps : AuthDeps) (store : CredentialStore) (body : Credentials) :
    HandlerResult :=
  match findOne store body.username with
  | some _ =>
    { outcome := .responded { status := 400, body := .text "User already exists" }
      store := store
      ops := [.findOne body.username] }
  | none =>
    match body.password with
    | none =>
      -- `hash(undefined, 10)` rejects
      { outcome := .rejected "Illegal arguments: undefined, number"
        store := store
        ops := [.findOne body.username] }
    | some password =>
      match save deps store body.username (deps.hash password) with
      | .error message =>
        { outcome := .rejected message
          store := store
          ops := [.findOne body.username, .save body.username] }
      | .ok (newUser, saved) =>
        { outcome := .responded
            { status := 201
              body := .json (obj [("token", str (deps.sign newUser.id newUser.username))]) }
          store := saved
          ops := [.findOne body.username, .save body.username] }

/-- The handler of `POST /login`. -/
def login (deps : AuthDeps) (store : CredentialStore) (body : Credentials) :
    HandlerResult :=
  match findOne store body.username with
  | none =>
    { outcome := .responded { status := 400, body := .text "Invalid credentials" }
      store := store
      ops := [.findOne body.username] }
  | some user =>
    match body.password with
    | none =>
      -- `compare(undefined, hash)` rejects
      { outcome := .rejected "Illegal arguments: undefined, string"
        store := store
        ops := [.findOne body.username] }
    | some password =>
      if deps.compare password user.password then
        { outcome := .responded
            { status := 200
              body := .json (obj [("token", str (deps.sign user.id user.username))]) }
          store := store
          ops := [.findOne body.username] }
      else
        { outcome := .responded { status := 400, body := .text "Invalid credentials" }
          store := store
          ops := [.findOne body.username] }

/-- The method `String.prototype.split(sep)` for a one-character separator, on
characters. -/
def jsSplitChars (sep : Char) : List Char → List (List Char)
  | [] => [[]]
  | c :: cs =>
    if c = sep then [] :: jsSplitChars sep cs
    else match jsSplitChars sep cs with
      | [] => [[c]]
      | word :: words => (c :: word) :: words

/-- The call `s.split(sep)` for a one-character separator. -/
def jsSplit (sep : Char) (s : String) : List String :=
  (jsSplitChars sep s.toList).map String.mk

/-- The expression `req.headers['authorization']?.split(' ')[1]`, with `none` for
`undefined`. -/
def headerToken (authorization : Option String) : Option String :=
  match authorization with
  | none => none
  | some header => (jsSplit ' ' header)[1]?

/-- The handler of `GET /protected`. -/
def protectedRoute (deps : AuthDeps) (authorization : Option String) : Response :=
  match headerToken authorization with
  | none => { status := 401, body := .text "Token required" }
  | some token =>
    if token = "" then { status := 401, body := .text "Token required" }
    else match deps.verify token with
      | some decoded =>
        { status := 200
          body := .json (obj [("message", str "This is a protected route"),
            ("user", decoded)]) }
      | none => { status := 401, body := .text "Invalid or expired token" }

/-! ## `gemini_route.js` -/

/-- The template literal `prompt`. -/
def countryGuidePrompt (country : String) : String :=
  "\nYou are Luffy the Guider, a cheerful and friendly local guide from " ++ country ++
  ". 🌍🎒\n\nPlease introduce " ++ country ++
  " in a fun and engaging way! Include:\n" ++
  "- Keep it short and sweet and only one paragraph\n" ++
  "- A warm welcome message 🌞\n" ++
  "- Important facts about " ++ country ++ "\n" ++
  "- Places we can visit inj this country :" ++ country ++ " \n" ++
  "- A fun cultural greeting or tradition 🙌\n" ++
  "- Something unique about its people or food 🍜\n\n" ++
  "Use warm and welcoming language, with emojis and a personal tone. " ++
  "Avoid boring facts — keep it sweet and exciting! 🤩\n"

/-- The generation API as the handler uses it: `model.generateContent(...)` followed by
`result.response.text()` gives the text, or throws an error with a `message`. -/
abbrev Generate := String → Except String String

/-- What running the country-guide handler leaves behind: its outcome and the prompts
sent to the generation API, in order. -/
structure GuideResult where
  outcome : Outcome
  prompts : List String
  deriving Repr, Inhabited

/-- The test `typeof v === "string"`. -/
def JSValue.isString : JSValue → Bool
  | str _ => true
  | _ => false

/-- The handler of `POST /country-guide`.  Destructuring `req.body` throws when the
body is `undefined` or `null`; past the guard `country` is a string, which the
template literal interpolates as it is. -/
def countryGuide (generate : Generate) (body : JSValue) : GuideResult :=
  match member body "country" with
  | .error _ =>
    { outcome := .rejected "Cannot destructure property country of req.body"
      prompts := [] }
  | .ok country =>
    if !country.truthy || !country.isString then
      { outcome := .responded
          { status := 400
            body := .json (obj [("error", str "Please provide a valid country name.")]) }
        prompts := [] }
    else
      match generate (countryGuidePrompt (toJSString country)) with
      | .ok text =>
        { outcome := .responded
            { status := 200, body := .json (obj [("result", str (jsTrim text))]) }
          prompts := [countryGuidePrompt (toJSString country)] }
      | .error message =>
        { outcome := .responded
            { status := 500
              body := .json (obj [
                ("error", str "Something went wrong while generating the country guide."),
                ("message", str message)]) }
          prompts := [countryGuidePrompt (toJSString country)] }

/-! ## Fixtures from `CountryTable.test.jsx` -/

/-- The entry for Japan of the test's `mockCountries`. -/
def mockJapan : Country :=
  { name := str "Japan", population := num 126000000, region := str "Asia",
    languages := str "Japanese", flag := str "https://flagcdn.com/jp.svg",
    capital := str "Tokyo" }

/-- The six entries of the test's `mockCountries`, in order. -/
def mockCountries : List Country :=
  [ { name := str "Sri Lanka", population := num 22000000, region := str "Asia",
      languages := str "Sinhala, Tamil", flag := str "https://flagcdn.com/lk.svg",
      capital := str "Colombo" },
    { name := str "United States", population := num 331000000,
      region := str "Americas", languages := str "English",
      flag := str "https://flagcdn.com/us.svg", capital := str "Washington D.C." },
    { name := str "Germany", population := num 83000000, region := str "Europe",
      languages := str "German", flag := str "https://flagcdn.com/de.svg",
      capital := str "Berlin" },
    { name := str "Kenya", population := num 53700000, region := str "Africa",
      languages := str "Swahili, English", flag := str "https://flagcdn.com/ke.svg",
      capital := str "Nairobi" },
    mockJapan,
    { name := str "Australia", population := num 25000000, region := str "Oceania",
      languages := str "English", flag := str "https://flagcdn.com/au.svg",
      capital := str "Canberra" } ]

/-- Services every one of which rejects, as `mockRejectedValueOnce(new Error('API
Error'))` makes `getAllCountries` do in the test "handles error cases gracefully". -/
def rejectingServices : Services :=
  { getAllCountries := .error (.transport "API Error")
    getCountryByName := fun _ => .error (.transport "API Error")
    getCountriesByRegion := fun _ => .error (.transport "API Error")
    getCountryByCode := fun _ => .error (.transport "API Error") }

/-- Services every one of which resolves with the entry for Japan. -/
def resolvingServices : Services :=
  { getAllCountries := .ok [mockJapan]
    getCountryByName := fun _ => .ok [mockJapan]
    getCountriesByRegion := fun _ => .ok [mockJapan]
    getCountryByCode := fun _ => .ok mockJapan }

/-! ## Fixtures for `server.js` -/

/-- Library stand-ins: a hash that prefixes the password, the matching comparison, a
token naming the user, a verifier that accepts exactly the token `"valid-token"`, and
ids counting the documents. -/
def stubDeps : AuthDeps :=
  { hash := fun password => "hashed:" ++ password
    compare := fun password hashed => hashed == "hashed:" ++ password
    sign := fun id username => "token:" ++ id ++ ":" ++ username
    verify := fun token =>
      if token = "valid-token" then some (obj [("id", str "0"), ("username", str "luffy")])
      else none
    newId := fun store => toString store.length }

/-! ## `CountryTable.jsx`: the pagination buttons -/

/-- A click on "Previous": `setCurrentPage((prev) => prev - 1)`, unless the button is
disabled. -/
def clickPrevious (st : TableState) : TableState :=
  if previousDisabled st then st else { st with currentPage := st.currentPage - 1 }

/-- A click on "Next": `setCurrentPage((prev) => prev + 1)`, unless the button is
disabled. -/
def clickNext (st : TableState) : TableState :=
  if nextDisabled st then st else { st with currentPage := st.currentPage + 1 }

/-- The two pagination buttons. -/
inductive PageClick where
  | previous
  | next
  deriving Repr, DecidableEq, Inhabited

/-- One click on a pagination button. -/
def click (st : TableState) : PageClick → TableState
  | .previous => clickPrevious st
  | .next => clickNext st

/-- A sequence of clicks, in order. -/
def clicks (st : TableState) (cs : List PageClick) : TableState :=
  cs.foldl click st

/-! ## Client storage and HTTP, as the pages use them -/

/-- The `localStorage` of the page: its keys with their values. -/
abbrev Storage := List (String × String)

/-- The call `localStorage.getItem(key)`, with `none` for `null`. -/
def getItem (storage : Storage) (key : String) : Option String :=
  match storage with
  | [] => none
  | (k, v) :: rest => if k == key then some v else getItem rest key

/-- The call `localStorage.removeItem(key)`. -/
def removeItem (storage : Storage) (key : String) : Storage :=
  storage.filter fun entry => entry.1 != key

/-- The call `localStorage.setItem(key, value)` on a string value. -/
def setItem (storage : Storage) (key value : String) : Storage :=
  match storage with
  | [] => [(key, value)]
  | (k, v) :: rest => if k == key then (k, value) :: rest else (k, v) :: setItem rest key value

/-- The truth value of what `getItem` returns: `null` and the empty string are
falsy. -/
def itemTruthy : Option String → Bool
  | none => false
  | some value => value != ""

/-- A request the page sends with axios. -/
inductive HttpRequest where
  | get (url : String) (authorization : String)
  | post (url : String) (body : JSValue)
  deriving Repr, Inhabited

/-- What a `catch (err)` of a page receives, as far as the pages read it:
`err.response` as status and data when the server answered with a status outside
2xx, and nothing when there is no response (a network error, or an exception thrown
inside the `try` block). -/
structure CaughtError where
  response : Option (Nat × JSValue)
  deriving Repr, Inhabited

/-- The expression `err.response?.data?.message`. -/
def CaughtError.message (err : CaughtError) : JSValue :=
  match err.response with
  | none => undefined
  | some (_, data) => optMember data "message"

/-- How axios turns a response of the backend into the outcome of the request: a 2xx
status resolves with the data, any other status rejects with the response attached.
A text body arrives as a string (the texts `server.js` sends are not JSON). -/
def axiosOutcome (r : Response) : Except CaughtError JSValue :=
  let data := match r.body with
    | .text s => str s
    | .json v => v
  if 200 ≤ r.status ∧ r.status < 300 then .ok data
  else .error { response := some (r.status, data) }

/-! ## `Home.jsx` -/

/-- What the mount effect of `Home` leaves behind: the storage, the calls of `navigate`,
the requests sent, and the value given to `setMessage` if it was called. -/
structure HomeRun where
  storage : Storage
  navigations : List String
  requests : List HttpRequest
  message : Option JSValue
  deriving Repr, Inhabited

/-- The effect of `Home`, given how the GET with a given Authorization header ends.
The `.catch` is chained after the `.then`, so it also receives an exception thrown by
the `.then` callback (`response.data.message` on a `null` body). -/
def homeMount (probe : String → Except CaughtError JSValue) (storage : Storage) : HomeRun :=
  match getItem storage "token" with
  | none => { storage := storage, navigations := ["/login"], requests := [], message := none }
  | some token =>
    if !itemTruthy (some token) then
      { storage := storage, navigations := ["/login"], requests := [], message := none }
    else
      match probe ("Bearer " ++ token) with
      | .ok data =>
        match member data "message" with
        | .ok message =>
          { storage := storage
            navigations := []
            requests := [.get "http://localhost:5000/protected" ("Bearer " ++ token)]
            message := some message }
        | .error _ =>
          { storage := removeItem storage "token"
            navigations := ["/login"]
            requests := [.get "http://localhost:5000/protected" ("Bearer " ++ token)]
            message := none }
      | .error _ =>
        { storage := removeItem storage "token"
          navigations := ["/login"]
          requests := [.get "http://localhost:5000/protected" ("Bearer " ++ token)]
          message := none }

/-! ## `Header.jsx` -/

/-- What the mount effect of `Header` leaves behind: the `username` state (initially
`""`) and the calls of `navigate`. -/
structure HeaderRun where
  username : String
  navigations : List String
  deriving Repr, DecidableEq, Inhabited

/-- The mount effect of `Header`. -/
def headerMount (storage : Storage) : HeaderRun :=
  match getItem storage "username" with
  | none => { username := "", navigations := ["/login"] }
  | some storedUserName =>
    if itemTruthy (some storedUserName) then
      { username := storedUserName, navigations := [] }
    else { username := "", navigations := ["/login"] }

/-- What `handleLogout` leaves behind. -/
structure LogoutRun where
  storage : Storage
  navigations : List String
  deriving Repr, DecidableEq, Inhabited

/-- The function `handleLogout`. -/
def handleLogout (storage : Storage) : LogoutRun :=
  { storage := removeItem (removeItem storage "token") "username"
    navigations := ["/login"] }

/-- The UTF-16 code units of a string, the "characters" `charAt` and `slice` count. -/
def utf16 (s : String) : List Nat :=
  (s.toList.map fun c =>
    if c.toNat < 0x10000 then [c.toNat]
    else [0xD800 + (c.toNat - 0x10000) / 0x400, 0xDC00 + (c.toNat - 0x10000) % 0x400]).flatten

/-- The function `getUserDisplayName`, on UTF-16 code units: `charAt(0)` is the first
code unit (none for the empty string) and `slice(1)` the others.  The library method
`toUpperCase` is a parameter. -/
def getUserDisplayName (toUpperCase : List Nat → List Nat) (username : String) :
    List Nat :=
  if username != "" then toUpperCase ((utf16 username).take 1) ++ (utf16 username).drop 1
  else utf16 "Guest"

/-! ## `Login.jsx` and `Signup.jsx` -/

/-- The `form` state of the login page. -/
structure LoginForm where
  username : String
  password : String
  deriving Repr, DecidableEq, Inhabited

/-- The `form` state of the signup page. -/
structure SignupForm where
  username : String
  password : String
  confirmPassword : String
  deriving Repr, DecidableEq, Inhabited

/-- What a submit handler leaves behind: the storage, the calls of `navigate`, the
requests sent, and the value given to `setError` if it was called. -/
structure SubmitRun where
  storage : Storage
  navigations : List String
  requests : List HttpRequest
  error : Option JSValue
  deriving Repr, Inhabited

/-- The function `handleLogin`, given how the POST ends.  A `null` response body makes
the destructuring throw, and that exception, which has no `response`, is caught like a
rejection. -/
def handleLogin (post : JSValue → Except CaughtError JSValue) (form : LoginForm)
    (storage : Storage) : SubmitRun :=
  match post (obj [("username", str form.username), ("password", str form.password)]) with
  | .ok data =>
    match member data "token" with
    | .ok token =>
      { storage := setItem (setItem storage "token" (toJSString token)) "username"
          form.username
        navigations := ["/"]
        requests := [.post "http://localhost:5000/login"
          (obj [("username", str form.username), ("password", str form.password)])]
        error := none }
    | .error _ =>
      { storage := storage
        navigations := []
        requests := [.post "http://localhost:5000/login"
          (obj [("username", str form.username), ("password", str form.password)])]
        error := some ((CaughtError.message { response := none }).or (str "Login failed")) }
  | .error err =>
    { storage := storage
      navigations := []
      requests := [.post "http://localhost:5000/login"
        (obj [("username", str form.username), ("password", str form.password)])]
      error := some (err.message.or (str "Login failed")) }

/-- The function `handleSignup`, given how the POST ends. -/
def handleSignup (post : JSValue → Except CaughtError JSValue) (form : SignupForm)
    (storage : Storage) : SubmitRun :=
  if form.password != form.confirmPassword then
    { storage := storage, navigations := [], requests := []
      error := some (str "Passwords do not match") }
  else
    match post (obj [("username", str form.username), ("password", str form.password)]) with
    | .ok data =>
      match member data "token" with
      | .ok token =>
        { storage := setItem storage "token" (toJSString token)
          navigations := ["/"]
          requests := [.post "http://localhost:5000/signup"
            (obj [("username", str form.username), ("password", str form.password)])]
          error := none }
      | .error _ =>
        { storage := storage
          navigations := []
          requests := [.post "http://localhost:5000/signup"
            (obj [("username", str form.username), ("password", str form.password)])]
          error := some
            ((CaughtError.message { response := none }).or (str "User already exists")) }
    | .error err =>
      { storage := storage
        navigations := []
        requests := [.post "http://localhost:5000/signup"
          (obj [("username", str form.username), ("password", str form.password)])]
        error := some (err.message.or (str "User already exists")) }

/-! ## Fixtures for the pages -/

/-- An upper-casing that agrees with `toUpperCase` on ASCII text: the code units of
`a` to `z` are moved to those of `A` to `Z`. -/
def asciiUpperCase (units : List Nat) : List Nat :=
  units.map fun u => if 97 ≤ u ∧ u ≤ 122 then u - 32 else u

/-! ## Specification vocabulary -/

/-- The relation "`ys` is `xs` formatted element by element": same length, and the
`i`-th record is `formatCountry` of the `i`-th upstream element. -/
def FormattedPointwise (xs : List JSValue) (ys : List Country) : Prop :=
  ys.length = xs.length ∧
    ∀ (i : Nat) (hx : i < xs.length) (hy : i < ys.length),
      formatCountry (xs.get ⟨i, hx⟩) = .ok (ys.get ⟨i, hy⟩)

/-! ## Auxiliary facts -/

/-- On an object every property read succeeds, so `formatCountry` returns the record
built from the six reads. -/
theorem formatCountry_obj (ps : List (String × JSValue)) :
    formatCountry (obj ps) = .ok {
      name := (optMember (lookup "name" ps) "common").or (str "N/A")
      population := (lookup "population" ps).or (str "N/A")
      region := (lookup "region" ps).or (str "N/A")
      languages :=
        if (lookup "languages" ps).truthy
        then str (joinWith ", " (objectValues (lookup "languages" ps)))
        else str "N/A"
      flag := (optMember (lookup "flags" ps) "png").or (str "N/A")
      capital := (optIndex (lookup "capital" ps) 0).or (str "N/A") } := rfl

/-- The mapper `formatCountry` throws only on `undefined` and `null`. -/
theorem formatCountry_isOk (x : JSValue) (hx : x.isNullish = false) :
    ∃ c, formatCountry x = .ok c := by
  cases x <;> first | (simp [isNullish] at hx; done) | exact ⟨_, rfl⟩

/-- The wrapper `rethrow` changes neither a value nor an error. -/
theorem rethrow_eq {α : Type} (body : Except JSError α) : rethrow body = body := by
  cases body <;> rfl

/-- The accumulator of `String.intercalate` is a prefix of its result. -/
theorem intercalate_go_acc (sep : String) (as : List String) (acc : String) :
    String.intercalate.go acc sep as = acc ++ String.intercalate.go "" sep as := by
  induction as generalizing acc with
  | nil => simp [String.intercalate.go]
  | cons a as ih =>
    rw [String.intercalate.go, ih, String.intercalate.go, ih ("" ++ sep ++ a)]
    simp [String.append_assoc]

/-- On an array of strings `join(sep)` is `String.intercalate`. -/
theorem joinWith_str (sep : String) (names : List String) :
    joinWith sep (names.map str) = sep.intercalate names := by
  induction names with
  | nil => simp [joinWith, String.intercalate]
  | cons a rest ih =>
    cases rest with
    | nil =>
      simp [joinWith, String.intercalate, String.intercalate.go, isNullish, toJSString]
    | cons b rest =>
      simp only [List.map_cons] at ih ⊢
      rw [joinWith, ih]
      simp only [String.intercalate, String.intercalate.go, isNullish, toJSString]
      rw [intercalate_go_acc sep rest (a ++ sep ++ b), intercalate_go_acc sep rest b]
      simp [String.append_assoc]

/-- Mapping `formatCountry` over a list without `undefined` or `null` elements
succeeds and formats the list element by element. -/
theorem mapM_formatCountry (xs : List JSValue) (hxs : ∀ x ∈ xs, x.isNullish = false) :
    ∃ ys, xs.mapM formatCountry = .ok ys ∧ FormattedPointwise xs ys := by
  induction xs with
  | nil => exact ⟨[], rfl, rfl, fun i hx => absurd hx (Nat.not_lt_zero i)⟩
  | cons x xs ih =>
    obtain ⟨c, hc⟩ := formatCountry_isOk x (hxs x (List.mem_cons_self x xs))
    obtain ⟨ys, hys, hlen, hpt⟩ := ih fun y hy => hxs y (List.mem_cons_of_mem x hy)
    refine ⟨c :: ys, ?_, ?_, ?_⟩
    · rw [List.mapM_cons, hc, hys]; rfl
    · simp [hlen]
    · intro i hx hy
      cases i with
      | zero => simpa using hc
      | succ j =>
        simpa using hpt j (Nat.lt_of_succ_lt_succ hx) (Nat.lt_of_succ_lt_succ hy)

/-! ## Normalisation (`formatCountry`) -/

/-- C1: when `name.common`, `population`, `languages`, `flags.png` and `capital` are
all absent from the first upstream record and its `region` is a non-empty string `r`,
`getCountryByCode` returns exactly the record with `region` equal to `r` and `"N/A"`
in the five other properties. -/
theorem getCountryByCode_missing_fields (get : AxiosGet) (code : String)
    (ps : List (String × JSValue)) (rest : List JSValue) (r : String)
    (hget : get (BASE_URL ++ "/alpha/" ++ code) = .ok (arr (obj ps :: rest)))
    (hname : optMember (lookup "name" ps) "common" = undefined)
    (hpop : lookup "population" ps = undefined)
    (hregion : lookup "region" ps = str r) (hr : r ≠ "")
    (hlang : lookup "languages" ps = undefined)
    (hflag : optMember (lookup "flags" ps) "png" = undefined)
    (hcap : lookup "capital" ps = undefined) :
    getCountryByCode get code = .ok {
      name := str "N/A", population := str "N/A", region := str r,
      languages := str "N/A", flag := str "N/A", capital := str "N/A" } := by
  have hfmt : formatCountry (obj ps) = .ok {
      name := str "N/A", population := str "N/A", region := str r,
      languages := str "N/A", flag := str "N/A", capital := str "N/A" } := by
    rw [formatCountry_obj, hname, hpop, hregion, hlang, hflag, hcap]
    simp [JSValue.or, truthy, optIndex, isNullish, hr]
  simp only [getCountryByCode, rethrow_eq, hget]
  exact hfmt

/-- The record of the test "should handle country with missing data fields". -/
theorem getCountryByCode_missing_fields_witness :
    getCountryByCode
        (fun _ => .ok (arr [obj [("name", obj []), ("region", str "Oceania"),
          ("flags", obj [])]]))
        "incomplete" = .ok {
      name := str "N/A", population := str "N/A", region := str "Oceania",
      languages := str "N/A", flag := str "N/A", capital := str "N/A" } :=
  getCountryByCode_missing_fields _ "incomplete"
    [("name", obj []), ("region", str "Oceania"), ("flags", obj [])] [] "Oceania"
    rfl rfl rfl rfl (by decide) rfl rfl rfl

/-- C2, as stated, fails: a record whose population is present as the number `0`
(an uninhabited territory) is formatted with population `"N/A"`, not `0`. -/
theorem formatCountry_population_zero :
    lookup "population"
        [("name", obj [("common", str "Bouvet Island")]), ("population", num 0),
          ("region", str "Antarctic")] = num 0 ∧
    ∃ c, formatCountry (obj
        [("name", obj [("common", str "Bouvet Island")]), ("population", num 0),
          ("region", str "Antarctic")]) = .ok c ∧
      c.population = str "N/A" ∧ c.population ≠ num 0 :=
  ⟨rfl, _, rfl, rfl, fun h => JSValue.noConfusion h⟩

/-- C2, amended: a population present as a non-zero number is returned unchanged (and
so is never replaced by the sentinel), and a missing population gives `"N/A"`. -/
theorem formatCountry_population (ps : List (String × JSValue)) :
    ∃ c, formatCountry (obj ps) = .ok c ∧
      (∀ n : Int, lookup "population" ps = num n → n ≠ 0 →
        c.population = num n ∧ c.population ≠ str "N/A") ∧
      (lookup "population" ps = undefined → c.population = str "N/A") := by
  refine ⟨_, formatCountry_obj ps, ?_, ?_⟩
  · intro n hn hne
    simp [hn, JSValue.or, truthy, hne]
  · intro hmissing
    simp [hmissing, JSValue.or, truthy]

/-- The population of the test record for Japan is returned as the same number. -/
theorem formatCountry_population_witness :
    ∃ c, formatCountry (obj [("name", obj [("common", str "Japan")]),
        ("population", num 125836021)]) = .ok c ∧ c.population = num 125836021 :=
  let ⟨c, hc, hnum, _⟩ := formatCountry_population
    [("name", obj [("common", str "Japan")]), ("population", num 125836021)]
  ⟨c, hc, (hnum 125836021 rfl (by decide)).1⟩

/-- When no key of an object is an array index, its values are enumerated in the order
the properties were inserted. -/
theorem enumeratedValues_of_no_index (ps : List (String × JSValue))
    (hkeys : ∀ p ∈ ps, arrayIndex? p.1 = none) :
    enumeratedValues ps = ps.map Prod.snd := by
  have hindexed :
      (ps.filterMap fun p => (arrayIndex? p.1).map fun i => (i, p.2)) = [] := by
    induction ps with
    | nil => rfl
    | cons p rest ih =>
      have hp := hkeys p (List.mem_cons_self p rest)
      have hrest := ih fun q hq => hkeys q (List.mem_cons_of_mem p hq)
      simp [List.filterMap_cons, hp, hrest]
  have hnamed : (ps.filter fun p => (arrayIndex? p.1).isNone) = ps := by
    rw [List.filter_eq_self]
    intro p hp
    simp [hkeys p hp]
  rw [enumeratedValues, hindexed, hnamed]
  rfl

/-- C3, as stated, fails: with the language keys `b`, `2`, `a`, `1` inserted in that
order, `Object.values` lists the array-index keys first, so the formatted `languages`
is "One, Two, Bee, Ay" and not the names joined in upstream insertion order. -/
theorem formatCountry_languages_integer_keys :
    ∃ c, formatCountry (obj [("languages", obj [("b", str "Bee"), ("2", str "Two"),
        ("a", str "Ay"), ("1", str "One")])]) = .ok c ∧
      c.languages = str "One, Two, Bee, Ay" ∧
      c.languages ≠ str (", ".intercalate ["Bee", "Two", "Ay", "One"]) :=
  ⟨_, rfl, rfl, fun h => absurd (JSValue.str.inj h) (by decide)⟩

/-- C3, amended: when `languages` is an object none of whose keys is an array index
and whose values, in upstream insertion order, are the language names `names`, the
formatted `languages` is the names joined with `", "` in that same order. -/
theorem formatCountry_languages (ps langs : List (String × JSValue))
    (names : List String)
    (hlang : lookup "languages" ps = obj langs)
    (hkeys : ∀ p ∈ langs, arrayIndex? p.1 = none)
    (hnames : langs.map Prod.snd = names.map str) :
    ∃ c, formatCountry (obj ps) = .ok c ∧
      c.languages = str (", ".intercalate names) := by
  refine ⟨_, formatCountry_obj ps, ?_⟩
  simp [hlang, truthy, objectValues, enumeratedValues_of_no_index langs hkeys, hnames,
    joinWith_str]

/-- The record of the test "should handle multiple languages correctly". -/
theorem formatCountry_languages_witness :
    ∃ c, formatCountry (obj [("name", obj [("common", str "Switzerland")]),
        ("languages", obj [("deu", str "German"), ("fra", str "French"),
          ("ita", str "Italian"), ("roh", str "Romansh")])]) = .ok c ∧
      c.languages = str "German, French, Italian, Romansh" :=
  formatCountry_languages
    [("name", obj [("common", str "Switzerland")]),
      ("languages", obj [("deu", str "German"), ("fra", str "French"),
        ("ita", str "Italian"), ("roh", str "Romansh")])]
    [("deu", str "German"), ("fra", str "French"), ("ita", str "Italian"),
      ("roh", str "Romansh")]
    ["German", "French", "Italian", "Romansh"] rfl (by decide) rfl

/-- C4, as stated, fails: a non-empty capital list whose first entry is the empty
string is formatted as `"N/A"`, not as that first entry. -/
theorem formatCountry_capital_empty_string :
    lookup "capital" [("capital", arr [str "", str "Cape Town"])] =
      arr [str "", str "Cape Town"] ∧
    ∃ c, formatCountry (obj [("capital", arr [str "", str "Cape Town"])]) = .ok c ∧
      c.capital = str "N/A" ∧ c.capital ≠ str "" :=
  ⟨rfl, _, rfl, rfl, fun h => absurd (JSValue.str.inj h) (by decide)⟩

/-- C4, amended: the formatted capital is the first entry of a non-empty capital list
whenever that entry is truthy, whatever the later entries, and it is `"N/A"` when the
capital property is absent or is the empty list. -/
theorem formatCountry_capital (ps : List (String × JSValue)) :
    ∃ c, formatCountry (obj ps) = .ok c ∧
      (∀ (first : JSValue) (later : List JSValue),
        lookup "capital" ps = arr (first :: later) → first.truthy = true →
          c.capital = first) ∧
      (lookup "capital" ps = undefined → c.capital = str "N/A") ∧
      (lookup "capital" ps = arr [] → c.capital = str "N/A") := by
  refine ⟨_, formatCountry_obj ps, ?_, ?_, ?_⟩
  · intro first later hcap hfirst
    simp [hcap, optIndex, isNullish, index, JSValue.or, hfirst]
  · intro hcap
    simp [hcap, optIndex, isNullish, JSValue.or, truthy]
  · intro hcap
    simp [hcap, optIndex, isNullish, index, JSValue.or, truthy]

/-- The record of the test "should handle countries with multiple capitals". -/
theorem formatCountry_capital_witness :
    ∃ c, formatCountry (obj [("name", obj [("common", str "SouthAfrica")]),
        ("capital", arr [str "Pretoria", str "Cape Town", str "Bloemfontein"])]) =
          .ok c ∧ c.capital = str "Pretoria" :=
  let ⟨c, hc, hfirst, _, _⟩ := formatCountry_capital
    [("name", obj [("common", str "SouthAfrica")]),
      ("capital", arr [str "Pretoria", str "Cape Town", str "Bloemfontein"])]
  ⟨c, hc, hfirst (str "Pretoria") [str "Cape Town", str "Bloemfontein"] rfl rfl⟩

/-! ## The four lookups -/

/-- C5: on an upstream response list `xs`, each of `getAllCountries`,
`getCountryByName` and `getCountriesByRegion` is `formatCountry` applied to the
elements of `xs` from left to right; when no element is `undefined` or `null` the
lookup returns a list of the same length whose `i`-th element is `formatCountry` of
the `i`-th upstream element. -/
theorem list_lookups_format_in_order (get : AxiosGet) (name region : String)
    (xs : List JSValue) :
    (get (BASE_URL ++ "/all") = .ok (arr xs) →
      getAllCountries get = xs.mapM formatCountry ∧
      ((∀ x ∈ xs, x.isNullish = false) →
        ∃ ys, getAllCountries get = .ok ys ∧ FormattedPointwise xs ys)) ∧
    (get (BASE_URL ++ "/name/" ++ name) = .ok (arr xs) →
      getCountryByName get name = xs.mapM formatCountry ∧
      ((∀ x ∈ xs, x.isNullish = false) →
        ∃ ys, getCountryByName get name = .ok ys ∧ FormattedPointwise xs ys)) ∧
    (get (BASE_URL ++ "/region/" ++ region) = .ok (arr xs) →
      getCountriesByRegion get region = xs.mapM formatCountry ∧
      ((∀ x ∈ xs, x.isNullish = false) →
        ∃ ys, getCountriesByRegion get region = .ok ys ∧ FormattedPointwise xs ys)) := by
  refine ⟨fun hget => ?_, fun hget => ?_, fun hget => ?_⟩
  · have h : getAllCountries get = xs.mapM formatCountry := by
      simp only [getAllCountries, rethrow_eq, hget]; rfl
    exact ⟨h, fun hxs => h ▸ mapM_formatCountry xs hxs⟩
  · have h : getCountryByName get name = xs.mapM formatCountry := by
      simp only [getCountryByName, rethrow_eq, hget]; rfl
    exact ⟨h, fun hxs => h ▸ mapM_formatCountry xs hxs⟩
  · have h : getCountriesByRegion get region = xs.mapM formatCountry := by
      simp only [getCountriesByRegion, rethrow_eq, hget]; rfl
    exact ⟨h, fun hxs => h ▸ mapM_formatCountry xs hxs⟩

/-- The two records of the test "should fetch and format all countries" come back
formatted, in upstream order. -/
theorem list_lookups_format_in_order_witness :
    ∃ ys, getAllCountries (fun _ => .ok (arr [
        obj [("name", obj [("common", str "Japan")]), ("region", str "Asia")],
        obj [("name", obj [("common", str "Italy")]), ("region", str "Europe")]])) =
        .ok ys ∧
      FormattedPointwise
        [obj [("name", obj [("common", str "Japan")]), ("region", str "Asia")],
          obj [("name", obj [("common", str "Italy")]), ("region", str "Europe")]] ys :=
  ((list_lookups_format_in_order
    (fun _ => .ok (arr [
        obj [("name", obj [("common", str "Japan")]), ("region", str "Asia")],
        obj [("name", obj [("common", str "Italy")]), ("region", str "Europe")]]))
    "japan" "europe" _).1 rfl).2 (by simp [isNullish])

/-- C6: on a non-empty upstream collection `getCountryByCode` is `formatCountry` of
the first element: a single record when that element is neither `undefined` nor
`null`, and the same outcome for any other tail of the collection. -/
theorem getCountryByCode_first (get : AxiosGet) (code : String) (first : JSValue)
    (rest : List JSValue)
    (hget : get (BASE_URL ++ "/alpha/" ++ code) = .ok (arr (first :: rest))) :
    getCountryByCode get code = formatCountry first ∧
    (first.isNullish = false → ∃ c, getCountryByCode get code = .ok c) ∧
    (∀ (get2 : AxiosGet) (rest2 : List JSValue),
      get2 (BASE_URL ++ "/alpha/" ++ code) = .ok (arr (first :: rest2)) →
        getCountryByCode get2 code = getCountryByCode get code) := by
  have h : ∀ (g : AxiosGet) (tl : List JSValue),
      g (BASE_URL ++ "/alpha/" ++ code) = .ok (arr (first :: tl)) →
        getCountryByCode g code = formatCountry first := by
    intro g tl hg
    simp only [getCountryByCode, rethrow_eq, hg]
    rfl
  refine ⟨h get rest hget, fun hfirst => ?_, fun get2 rest2 hget2 => ?_⟩
  · rw [h get rest hget]
    exact formatCountry_isOk first hfirst
  · rw [h get rest hget, h get2 rest2 hget2]

/-- A two-element collection is formatted from its first element alone. -/
theorem getCountryByCode_first_witness :
    getCountryByCode
        (fun _ => .ok (arr [obj [("name", obj [("common", str "Japan")])],
          obj [("name", obj [("common", str "Italy")])]])) "jpn" =
      formatCountry (obj [("name", obj [("common", str "Japan")])]) :=
  (getCountryByCode_first _ "jpn" (obj [("name", obj [("common", str "Japan")])])
    [obj [("name", obj [("common", str "Italy")])]] rfl).1

/-! ## `trim` -/

/-- The trimmed characters are empty exactly when every character is white space. -/
theorem jsTrimChars_eq_nil_iff (cs : List Char) :
    jsTrimChars cs = [] ↔ ∀ c ∈ cs, isJSWhitespace c = true := by
  unfold jsTrimChars
  constructor
  · intro h c hc
    rw [List.reverse_eq_nil_iff, List.dropWhile_eq_nil_iff] at h
    by_contra hn
    have hsplit := List.takeWhile_append_dropWhile isJSWhitespace cs
    rw [← hsplit, List.mem_append] at hc
    rcases hc with hc | hc
    · exact hn (List.mem_takeWhile_imp hc)
    · exact hn (h c (List.mem_reverse.mpr hc))
  · intro h
    have hdrop : cs.dropWhile isJSWhitespace = [] := by
      simpa [List.dropWhile_eq_nil_iff] using h
    rw [hdrop]
    rfl

/-- The input is the trimmed text between a run of leading and a run of trailing
white space. -/
theorem jsTrimChars_decomp (cs : List Char) :
    ∃ pre post, cs = pre ++ jsTrimChars cs ++ post ∧
      (∀ c ∈ pre, isJSWhitespace c = true) ∧ (∀ c ∈ post, isJSWhitespace c = true) := by
  refine ⟨cs.takeWhile isJSWhitespace,
    ((cs.dropWhile isJSWhitespace).reverse.takeWhile isJSWhitespace).reverse, ?_, ?_, ?_⟩
  · unfold jsTrimChars
    rw [List.append_assoc, ← List.reverse_append, List.takeWhile_append_dropWhile,
      List.reverse_reverse, List.takeWhile_append_dropWhile]
  · intro c hc
    exact List.mem_takeWhile_imp hc
  · intro c hc
    exact List.mem_takeWhile_imp (List.mem_reverse.mp hc)

/-- The trimmed text does not start with white space. -/
theorem jsTrimChars_head (cs : List Char) (c : Char)
    (h : (jsTrimChars cs).head? = some c) : isJSWhitespace c = false := by
  have hd : cs.dropWhile isJSWhitespace = jsTrimChars cs ++
      ((cs.dropWhile isJSWhitespace).reverse.takeWhile isJSWhitespace).reverse := by
    unfold jsTrimChars
    rw [← List.reverse_append, List.takeWhile_append_dropWhile, List.reverse_reverse]
  have hnot := List.head?_dropWhile_not isJSWhitespace cs
  rw [hd] at hnot
  cases htrim : jsTrimChars cs with
  | nil => rw [htrim] at h; simp at h
  | cons a t =>
    rw [htrim] at h hnot
    simp at h hnot
    rw [← h]; exact hnot

/-- The trimmed text does not end with white space. -/
theorem jsTrimChars_getLast (cs : List Char) (c : Char)
    (h : (jsTrimChars cs).getLast? = some c) : isJSWhitespace c = false := by
  unfold jsTrimChars at h
  rw [List.getLast?_reverse] at h
  have hnot := List.head?_dropWhile_not isJSWhitespace
    (cs.dropWhile isJSWhitespace).reverse
  rw [h] at hnot
  simpa using hnot

/-- The trimmed string is empty exactly when the string is all white space. -/
theorem jsTrim_eq_empty_iff (s : String) :
    jsTrim s = "" ↔ ∀ c ∈ s.toList, isJSWhitespace c = true := by
  rw [← jsTrimChars_eq_nil_iff]
  unfold jsTrim
  constructor
  · intro h
    have := congrArg String.toList h
    simpa using this
  · intro h
    rw [h]

/-! ## Strategy selection in `fetchFiltered` -/

/-- C7: when the trimmed search text is non-empty and at most 3 code units long, then
for every region filter and every listing the query invokes `getCountryByCode` with the
trimmed text and nothing else, and when that lookup returns a record the listing
becomes the one-element list holding it. -/
theorem fetchFiltered_by_code (svc : Services) (st : TableState)
    (hne : jsTrim st.searchTerm ≠ "")
    (hlen : jsLength (jsTrim st.searchTerm) ≤ 3) :
    (fetchFiltered svc st).calls = [.byCode (jsTrim st.searchTerm)] ∧
    ∀ c, svc.getCountryByCode (jsTrim st.searchTerm) = .ok c →
      (fetchFiltered svc st).state.countries = [c] := by
  unfold fetchFiltered
  simp only [bne_iff_ne, ne_eq, hne, not_false_eq_true, if_true, hlen]
  cases hres : svc.getCountryByCode (jsTrim st.searchTerm) with
  | ok c => simp
  | error e => simp

/-- A three-letter code typed with surrounding blanks while the region filter is
"Asia" and the listing is empty: one by-code lookup, and the listing becomes the
returned record alone. -/
theorem fetchFiltered_by_code_witness :
    (fetchFiltered resolvingServices
      { countries := [], searchTerm := " jpn ", region := "Asia",
        currentPage := 2 }).calls = [.byCode "jpn"] ∧
    (fetchFiltered resolvingServices
      { countries := [], searchTerm := " jpn ", region := "Asia",
        currentPage := 2 }).state.countries = [mockJapan] :=
  ⟨(fetchFiltered_by_code resolvingServices
      { countries := [], searchTerm := " jpn ", region := "Asia",
        currentPage := 2 } (by decide) (by decide)).1,
    (fetchFiltered_by_code resolvingServices
      { countries := [], searchTerm := " jpn ", region := "Asia",
        currentPage := 2 } (by decide) (by decide)).2 mockJapan rfl⟩

/-- C8: when the trimmed search text is longer than 3 code units, then for every region
filter the query invokes `getCountryByName` with the trimmed text and nothing else; the
trimmed text is the search text without its leading and trailing white space. -/
theorem fetchFiltered_by_name (svc : Services) (st : TableState)
    (hlen : 3 < jsLength (jsTrim st.searchTerm)) :
    (fetchFiltered svc st).calls = [.byName (jsTrim st.searchTerm)] ∧
    (∃ pre post, st.searchTerm.toList = pre ++ (jsTrim st.searchTerm).toList ++ post ∧
      (∀ c ∈ pre, isJSWhitespace c = true) ∧ (∀ c ∈ post, isJSWhitespace c = true)) ∧
    (∀ c, (jsTrim st.searchTerm).toList.head? = some c → isJSWhitespace c = false) ∧
    (∀ c, (jsTrim st.searchTerm).toList.getLast? = some c →
      isJSWhitespace c = false) := by
  have hne : jsTrim st.searchTerm ≠ "" := by
    intro h
    rw [h] at hlen
    exact absurd hlen (by decide)
  refine ⟨?_, jsTrimChars_decomp st.searchTerm.toList,
    fun c hc => jsTrimChars_head st.searchTerm.toList c hc,
    fun c hc => jsTrimChars_getLast st.searchTerm.toList c hc⟩
  unfold fetchFiltered
  simp only [bne_iff_ne, ne_eq, hne, not_false_eq_true, if_true, Nat.not_le.mpr hlen,
    if_false]
  cases hres : svc.getCountryByName (jsTrim st.searchTerm) with
  | ok c => simp
  | error e => simp

/-- The search "japan" of the test "filters countries by name search", typed with
surrounding white space while the region filter is "Europe". -/
theorem fetchFiltered_by_name_witness :
    (fetchFiltered rejectingServices
      { countries := [], searchTerm := "  japan\t", region := "Europe",
        currentPage := 1 }).calls = [.byName "japan"] :=
  (fetchFiltered_by_name rejectingServices
    { countries := [], searchTerm := "  japan\t", region := "Europe",
      currentPage := 1 } (by decide)).1

/-- C9: when the search text is empty or all white space, the query invokes
`getCountriesByRegion` with the region filter if that filter differs from "All" and
`getAllCountries` otherwise, and in both cases nothing else. -/
theorem fetchFiltered_blank_search (svc : Services) (st : TableState)
    (hblank : ∀ c ∈ st.searchTerm.toList, isJSWhitespace c = true) :
    (st.region ≠ "All" → (fetchFiltered svc st).calls = [.byRegion st.region]) ∧
    (st.region = "All" → (fetchFiltered svc st).calls = [.all]) := by
  have hempty : jsTrim st.searchTerm = "" := (jsTrim_eq_empty_iff st.searchTerm).mpr hblank
  constructor
  · intro hregion
    unfold fetchFiltered
    simp only [hempty, bne_self_eq_false, Bool.false_eq_true, if_false, bne_iff_ne, ne_eq,
      hregion, not_false_eq_true, if_true]
    cases hres : svc.getCountriesByRegion st.region with
    | ok c => simp
    | error e => simp
  · intro hregion
    unfold fetchFiltered fetchCountries
    simp only [hempty, bne_self_eq_false, Bool.false_eq_true, if_false, hregion]
    cases hres : svc.getAllCountries with
    | ok c => simp
    | error e => simp

/-- A search box holding two blanks with the region filter on "Asia". -/
theorem fetchFiltered_blank_search_witness :
    (fetchFiltered rejectingServices
      { countries := [mockJapan], searchTerm := "  ", region := "Asia",
        currentPage := 1 }).calls = [.byRegion "Asia"] :=
  (fetchFiltered_blank_search rejectingServices
    { countries := [mockJapan], searchTerm := "  ", region := "Asia",
      currentPage := 1 } (by decide)).1 (by decide)

/-! ## Failure of the chosen lookup -/

/-- When one of the three awaited lookups (by code, by name, by region) is the chosen
strategy and rejects, the listing becomes empty. -/
theorem fetchFiltered_awaited_failure (svc : Services) (st : TableState) :
    (jsTrim st.searchTerm ≠ "" → jsLength (jsTrim st.searchTerm) ≤ 3 →
      ∀ e, svc.getCountryByCode (jsTrim st.searchTerm) = .error e →
        (fetchFiltered svc st).state.countries = []) ∧
    (3 < jsLength (jsTrim st.searchTerm) →
      ∀ e, svc.getCountryByName (jsTrim st.searchTerm) = .error e →
        (fetchFiltered svc st).state.countries = []) ∧
    (jsTrim st.searchTerm = "" → st.region ≠ "All" →
      ∀ e, svc.getCountriesByRegion st.region = .error e →
        (fetchFiltered svc st).state.countries = []) := by
  refine ⟨fun hne hlen e he => ?_, fun hlen e he => ?_, fun hempty hregion e he => ?_⟩
  · unfold fetchFiltered
    simp [hne, hlen, he]
  · have hne : jsTrim st.searchTerm ≠ "" := by
      intro h
      rw [h] at hlen
      exact absurd hlen (by decide)
    unfold fetchFiltered
    simp [hne, Nat.not_le.mpr hlen, he]
  · unfold fetchFiltered
    simp [hempty, hregion, he]

/-- C10, the list-all strategy: with Japan listed, an empty search box and the region
filter on "All", a rejected `getAllCountries` leaves Japan listed; the listing does
not become empty. -/
theorem fetchFiltered_list_all_failure :
    rejectingServices.getAllCountries = .error (.transport "API Error") ∧
    (fetchFiltered rejectingServices
      { countries := [mockJapan], searchTerm := "", region := "All",
        currentPage := 1 }).calls = [.all] ∧
    (fetchFiltered rejectingServices
      { countries := [mockJapan], searchTerm := "", region := "All",
        currentPage := 1 }).state.countries = [mockJapan] ∧
    (fetchFiltered rejectingServices
      { countries := [mockJapan], searchTerm := "", region := "All",
        currentPage := 1 }).state.countries ≠ [] :=
  ⟨rfl, rfl, rfl, fun h => List.noConfusion h⟩

/-! ## Page reset -/

/-- When one of the three awaited lookups (by code, by name, by region) is the chosen
strategy and resolves, the current page becomes 1. -/
theorem fetchFiltered_awaited_success (svc : Services) (st : TableState) :
    (jsTrim st.searchTerm ≠ "" → jsLength (jsTrim st.searchTerm) ≤ 3 →
      ∀ c, svc.getCountryByCode (jsTrim st.searchTerm) = .ok c →
        (fetchFiltered svc st).state.currentPage = 1) ∧
    (3 < jsLength (jsTrim st.searchTerm) →
      ∀ cs, svc.getCountryByName (jsTrim st.searchTerm) = .ok cs →
        (fetchFiltered svc st).state.currentPage = 1) ∧
    (jsTrim st.searchTerm = "" → st.region ≠ "All" →
      ∀ cs, svc.getCountriesByRegion st.region = .ok cs →
        (fetchFiltered svc st).state.currentPage = 1) := by
  refine ⟨fun hne hlen c hc => ?_, fun hlen cs hcs => ?_, fun hempty hregion cs hcs => ?_⟩
  · unfold fetchFiltered
    simp [hne, hlen, hc]
  · have hne : jsTrim st.searchTerm ≠ "" := by
      intro h
      rw [h] at hlen
      exact absurd hlen (by decide)
    unfold fetchFiltered
    simp [hne, Nat.not_le.mpr hlen, hcs]
  · unfold fetchFiltered
    simp [hempty, hregion, hcs]

/-- C11, the list-all strategy: on page 2 of a six-row listing, with the search box
emptied and the region filter on "All", the query (whose `getAllCountries` resolves
with one record) leaves the current page at 2, so the page shown has no row. -/
theorem fetchFiltered_list_all_keeps_page :
    (fetchFiltered resolvingServices
      { countries := List.replicate 6 mockJapan, searchTerm := "", region := "All",
        currentPage := 2 }).calls = [.all] ∧
    (fetchFiltered resolvingServices
      { countries := List.replicate 6 mockJapan, searchTerm := "", region := "All",
        currentPage := 2 }).state.currentPage = 2 ∧
    (fetchFiltered resolvingServices
      { countries := List.replicate 6 mockJapan, searchTerm := "", region := "All",
        currentPage := 2 }).state.currentPage ≠ 1 ∧
    paginatedCountries (fetchFiltered resolvingServices
      { countries := List.replicate 6 mockJapan, searchTerm := "", region := "All",
        currentPage := 2 }).state = [] :=
  ⟨rfl, rfl, by decide, rfl⟩

/-! ## Pagination -/

/-- On natural numbers `jsCeilDiv` is the ceiling of the quotient. -/
theorem jsCeilDiv_eq_ceil (a b : Nat) (hb : 0 < b) :
    ((jsCeilDiv a b : Nat) : Int) = ⌈(a : ℚ) / (b : ℚ)⌉ := by
  symm
  rw [Int.ceil_eq_iff]
  have hbq : (0 : ℚ) < (b : ℚ) := by exact_mod_cast hb
  have hlow : b * jsCeilDiv a b ≤ a + (b - 1) := Nat.mul_div_le _ _
  have hhigh : a + (b - 1) < b * (jsCeilDiv a b + 1) := by
    have := Nat.lt_mul_div_succ (a + (b - 1)) hb
    simpa [jsCeilDiv] using this
  constructor
  · rw [lt_div_iff₀ hbq]
    have h : b * jsCeilDiv a b < a + b := by omega
    have hq : ((b * jsCeilDiv a b : Nat) : ℚ) < ((a + b : Nat) : ℚ) := by exact_mod_cast h
    push_cast at hq ⊢
    linarith
  · rw [div_le_iff₀ hbq]
    have h : a ≤ jsCeilDiv a b * b := by
      rw [Nat.mul_comm]
      have : b * (jsCeilDiv a b + 1) = b * jsCeilDiv a b + b := by ring
      omega
    have hq : ((a : Nat) : ℚ) ≤ ((jsCeilDiv a b * b : Nat) : ℚ) := by exact_mod_cast h
    push_cast at hq ⊢
    linarith

/-- With natural arguments and a start inside the array, `slice` drops the start and
takes up to the clamped end. -/
theorem jsSlice_nat {α : Type} (xs : List α) (a b : Nat) (ha : a ≤ xs.length) :
    jsSlice xs (a : Int) (b : Int) = (xs.drop a).take (min b xs.length - a) := by
  unfold jsSlice
  have h1 : ¬ ((a : Int) < 0) := by omega
  have h2 : ¬ ((b : Int) < 0) := by omega
  simp only [h1, h2, if_false]
  have h3 : min (a : Int) (xs.length : Int) = (a : Int) := by omega
  rw [h3]
  congr 1
  omega

/-- C12, as stated, fails: with zero results `totalPages` is 0, not
`max(1, ceil(0 / 5)) = 1`, and on page 1 the "Next" button is not disabled. -/
theorem pagination_empty_listing :
    totalPages { countries := [], searchTerm := "", region := "All", currentPage := 1 }
      = 0 ∧
    max 1 ⌈((0 : Nat) : ℚ) / 5⌉ = 1 ∧
    nextDisabled
      { countries := [], searchTerm := "", region := "All", currentPage := 1 } = false := by
  refine ⟨rfl, ?_, rfl⟩
  norm_num

/-- C12, amended: for every listing of `n` results the last page number used by the
pagination controls is `ceil(n / 5)`, which is `max(1, ceil(n / 5))` whenever
`n ≥ 1`, and "Next" is disabled exactly when the current page equals that number. -/
theorem pagination_total_pages (st : TableState) :
    totalPages st = ⌈(st.countries.length : ℚ) / 5⌉ ∧
    (1 ≤ st.countries.length →
      totalPages st = max 1 ⌈(st.countries.length : ℚ) / 5⌉) ∧
    (nextDisabled st = true ↔ st.currentPage = totalPages st) := by
  have hceil : totalPages st = ⌈(st.countries.length : ℚ) / 5⌉ := by
    have h := jsCeilDiv_eq_ceil st.countries.length ITEMS_PER_PAGE (by decide)
    simpa [totalPages, ITEMS_PER_PAGE] using h
  refine ⟨hceil, fun hn => ?_, ?_⟩
  · rw [← hceil]
    have h1 : (1 : Int) ≤ totalPages st := by
      simp only [totalPages, jsCeilDiv, ITEMS_PER_PAGE]
      omega
    omega
  · simp [nextDisabled]

/-- Six results: two pages, and "Next" is disabled on page 2. -/
theorem pagination_total_pages_witness :
    totalPages
        { countries := List.replicate 6 mockJapan, searchTerm := "", region := "All",
          currentPage := 2 } = max 1 ⌈((6 : Nat) : ℚ) / 5⌉ ∧
    nextDisabled
        { countries := List.replicate 6 mockJapan, searchTerm := "", region := "All",
          currentPage := 2 } = true :=
  ⟨(pagination_total_pages
      { countries := List.replicate 6 mockJapan, searchTerm := "", region := "All",
        currentPage := 2 }).2.1 (by decide),
    (pagination_total_pages
      { countries := List.replicate 6 mockJapan, searchTerm := "", region := "All",
        currentPage := 2 }).2.2.mpr rfl⟩

/-- C13: for a non-empty listing of `n` results on a page `p` with
`1 ≤ p ≤ ceil(n / 5)`, the visible rows are the results at indices `(p - 1) * 5` up to
`min(p * 5, n) - 1` in listing order (at least one row), "Previous" is disabled iff
`p = 1` and "Next" is disabled iff `p = ceil(n / 5)`. -/
theorem pagination_page (st : TableState) (p : Nat)
    (hne : st.countries ≠ [])
    (hpage : st.currentPage = (p : Int))
    (hlow : 1 ≤ p)
    (hhigh : (p : Int) ≤ ⌈(st.countries.length : ℚ) / 5⌉) :
    (paginatedCountries st).length = min (p * 5) st.countries.length - (p - 1) * 5 ∧
    0 < (paginatedCountries st).length ∧
    (∀ j, j < (paginatedCountries st).length →
      (paginatedCountries st)[j]? = st.countries[(p - 1) * 5 + j]?) ∧
    (previousDisabled st = true ↔ p = 1) ∧
    (nextDisabled st = true ↔ (p : Int) = ⌈(st.countries.length : ℚ) / 5⌉) := by
  have hceil : totalPages st = ⌈(st.countries.length : ℚ) / 5⌉ := by
    have h := jsCeilDiv_eq_ceil st.countries.length ITEMS_PER_PAGE (by decide)
    simpa [totalPages, ITEMS_PER_PAGE] using h
  rw [← hceil] at hhigh ⊢
  have hn : 0 < st.countries.length := List.length_pos.mpr hne
  have hstart : (p - 1) * 5 < st.countries.length := by
    simp only [totalPages, jsCeilDiv, ITEMS_PER_PAGE] at hhigh
    omega
  have hslice : paginatedCountries st =
      (st.countries.drop ((p - 1) * 5)).take
        (min (p * 5) st.countries.length - (p - 1) * 5) := by
    have h := jsSlice_nat st.countries ((p - 1) * 5) (p * 5) (Nat.le_of_lt hstart)
    have e1 : startIndex st = (((p - 1) * 5 : Nat) : Int) := by
      simp only [startIndex, hpage, ITEMS_PER_PAGE]
      omega
    have e2 : startIndex st + (ITEMS_PER_PAGE : Int) = ((p * 5 : Nat) : Int) := by
      simp only [startIndex, hpage, ITEMS_PER_PAGE]
      omega
    rw [paginatedCountries, e2, e1]
    exact h
  have hlen : (paginatedCountries st).length =
      min (p * 5) st.countries.length - (p - 1) * 5 := by
    rw [hslice, List.length_take, List.length_drop]
    omega
  refine ⟨hlen, by omega, fun j hj => ?_, ?_, ?_⟩
  · rw [hslice, List.getElem?_take, List.getElem?_drop]
    rw [hlen] at hj
    simp [hj]
  · simp only [previousDisabled, hpage, beq_iff_eq]
    omega
  · simp [nextDisabled, hpage]

/-- The six mock countries of the test "performs pagination correctly": page 2 shows
one row, the sixth country, and "Next" is disabled there. -/
theorem pagination_page_witness :
    (paginatedCountries
      { countries := mockCountries, searchTerm := "", region := "All",
        currentPage := 2 }).length = 1 ∧
    (paginatedCountries
      { countries := mockCountries, searchTerm := "", region := "All",
        currentPage := 2 })[0]? = mockCountries[5]? ∧
    nextDisabled
      { countries := mockCountries, searchTerm := "", region := "All",
        currentPage := 2 } = true :=
  have h := pagination_page
    { countries := mockCountries, searchTerm := "", region := "All", currentPage := 2 }
    2 (by simp [mockCountries]) rfl (by decide)
    (by rw [Int.le_ceil_iff]; norm_num [mockCountries])
  ⟨h.1, h.2.2.1 0 h.2.1, h.2.2.2.2.mpr (by
    symm; rw [Int.ceil_eq_iff]; norm_num [mockCountries])⟩

/-! ## Debounce -/

/-- Every run of `fetchFiltered` makes exactly one lookup. -/
theorem fetchFiltered_calls_singleton (svc : Services) (st : TableState) :
    ∃ lookup, (fetchFiltered svc st).calls = [lookup] := by
  unfold fetchFiltered fetchCountries
  split
  · split
    · split <;> exact ⟨_, rfl⟩
    · split <;> exact ⟨_, rfl⟩
  · split
    · split <;> exact ⟨_, rfl⟩
    · split <;> exact ⟨_, rfl⟩

/-- A timer that is not yet due does not fire. -/
theorem advance_not_due (svc : Services) (now : Nat) (s : Debounced)
    (h : ∀ due, s.pending = some due → now < due) : advance svc now s = s := by
  unfold advance
  cases hp : s.pending with
  | none => rfl
  | some due =>
    have := h due hp
    simp [Nat.not_le.mpr this]

/-- An altering change that arrives before the pending timer is due replaces the
timer and makes no lookup. -/
theorem onChange_not_due (svc : Services) (s : Debounced) (e : TimedChange)
    (h : ∀ due, s.pending = some due → e.time < due)
    (halters : changesInput s.table e.change = true) :
    onChange svc s e =
      { table := setInput s.table e.change
        pending := some (e.time + DEBOUNCE_MS)
        calls := s.calls } := by
  unfold onChange
  rw [advance_not_due svc e.time s h]
  simp [halters]

/-- A closely spaced sequence of altering changes leaves one pending timer, the final
inputs, and no lookup made. -/
theorem runChanges_closelySpaced (svc : Services) (more : List TimedChange) :
    ∀ (s : Debounced) (first : TimedChange),
      (∀ due, s.pending = some due → first.time < due) →
      closelySpaced first.time more = true →
      everyChangeAlters s.table (first :: more) = true →
      ∃ due, runChanges svc s (first :: more) =
        { table := applyInputs s.table (first :: more)
          pending := some due
          calls := s.calls } := by
  induction more with
  | nil =>
    intro s first hpending _ halters
    simp only [everyChangeAlters, Bool.and_true] at halters
    exact ⟨first.time + DEBOUNCE_MS, by
      simp [runChanges, applyInputs, onChange_not_due svc s first hpending halters]⟩
  | cons e rest ih =>
    intro s first hpending hspaced halters
    simp only [closelySpaced, Bool.and_eq_true, decide_eq_true_eq] at hspaced
    rw [everyChangeAlters, Bool.and_eq_true] at halters
    have hfirst := onChange_not_due svc s first hpending halters.1
    obtain ⟨due, hdue⟩ := ih (onChange svc s first) e
      (by
        intro d hd
        rw [hfirst] at hd
        simp only [Option.some.injEq] at hd
        omega)
      hspaced.2
      (by rw [hfirst]; exact halters.2)
    refine ⟨due, ?_⟩
    have hrun : runChanges svc s (first :: e :: rest) =
        runChanges svc (onChange svc s first) (e :: rest) := rfl
    rw [hrun, hdue, hfirst]
    rfl

/-- C14: for every sequence of input changes that starts before any pending timer is
due, in which each change alters its input and follows the previous one by less than
300 ms, no lookup is made while the changes arrive and exactly one is made when the
last timer expires: the one `fetchFiltered` chooses from the final search text and
region. -/
theorem debounce_single_lookup (svc : Services) (s : Debounced) (first : TimedChange)
    (more : List TimedChange)
    (hpending : ∀ due, s.pending = some due → first.time < due)
    (hspaced : closelySpaced first.time more = true)
    (halters : everyChangeAlters s.table (first :: more) = true) :
    ∃ lookup,
      (fetchFiltered svc (applyInputs s.table (first :: more))).calls = [lookup] ∧
      (runChanges svc s (first :: more)).calls = s.calls ∧
      (expire svc (runChanges svc s (first :: more))).calls = s.calls ++ [lookup] ∧
      (expire svc (runChanges svc s (first :: more))).pending = none := by
  obtain ⟨lookup, hlookup⟩ :=
    fetchFiltered_calls_singleton svc (applyInputs s.table (first :: more))
  obtain ⟨due, hdue⟩ := runChanges_closelySpaced svc more s first hpending hspaced halters
  refine ⟨lookup, hlookup, ?_, ?_, ?_⟩
  · rw [hdue]
  · rw [hdue]
    simp only [expire]
    rw [hlookup]
  · rw [hdue]
    rfl

/-- Typing "j", "jp", "jpn" at 1000 ms, 1100 ms and 1350 ms into an idle listing
makes the single lookup by code "jpn". -/
theorem debounce_single_lookup_witness :
    (expire resolvingServices (runChanges resolvingServices
      { table := { countries := mockCountries, searchTerm := "", region := "All",
                   currentPage := 1 },
        pending := none, calls := [] }
      [⟨1000, .search "j"⟩, ⟨1100, .search "jp"⟩, ⟨1350, .search "jpn"⟩])).calls =
      [.byCode "jpn"] :=
  match debounce_single_lookup resolvingServices
    { table := { countries := mockCountries, searchTerm := "", region := "All",
                 currentPage := 1 },
      pending := none, calls := [] }
    ⟨1000, .search "j"⟩ [⟨1100, .search "jp"⟩, ⟨1350, .search "jpn"⟩]
    (fun _ h => Option.noConfusion h) (by decide) (by decide) with
  | ⟨_, hchosen, _, hcalls, _⟩ => hcalls.trans (congrArg (fun l => [] ++ l) hchosen.symm)

/-! ## Signup and login -/

/-- The query `findOne` finds a record whenever some record bears the username. -/
theorem findOne_isSome_of_mem (store : CredentialStore) (u : String) (doc : UserDoc)
    (hmem : doc ∈ store) (hname : doc.username = u) :
    ∃ found, findOne store (some u) = some found := by
  cases hfind : findOne store (some u) with
  | some found => exact ⟨found, rfl⟩
  | none =>
    exfalso
    simp only [findOne, List.find?_eq_none] at hfind
    exact hfind doc hmem (by simp [hname])

/-- C15, as stated, fails: a signup that carries a username and no password is not
answered with a client error; the handler queries the credential store and then
rejects without sending a response. -/
theorem signup_missing_password_no_response :
    (signup stubDeps [] { username := some "luffy", password := none }).outcome =
      .rejected "Illegal arguments: undefined, number" ∧
    (∀ r, (signup stubDeps [] { username := some "luffy", password := none }).outcome ≠
      .responded r) ∧
    (signup stubDeps [] { username := some "luffy", password := none }).ops =
      [.findOne (some "luffy")] :=
  ⟨rfl, fun _ h => Outcome.noConfusion h, rfl⟩

/-- C15, amended: a signup in which username or password is missing creates no
credential record and returns no token; the handler begins by querying the credential
store for the username and then either answers 400 "User already exists" or rejects
without a response. -/
theorem signup_missing_field (deps : AuthDeps) (store : CredentialStore)
    (body : Credentials) (hmissing : body.username = none ∨ body.password = none) :
    (signup deps store body).store = store ∧
    (signup deps store body).ops.head? = some (.findOne body.username) ∧
    ((signup deps store body).outcome =
        .responded { status := 400, body := .text "User already exists" } ∨
      ∃ message, (signup deps store body).outcome = .rejected message) := by
  unfold signup
  cases hfind : findOne store body.username with
  | some found => exact ⟨rfl, rfl, Or.inl rfl⟩
  | none =>
    cases hpw : body.password with
    | none => exact ⟨rfl, rfl, Or.inr ⟨_, rfl⟩⟩
    | some password =>
      have huser : body.username = none := by
        rcases hmissing with h | h
        · exact h
        · rw [hpw] at h; exact Option.noConfusion h
      simp [huser, save]

/-- A signup without a username into a store holding one user. -/
theorem signup_missing_field_witness :
    (signup stubDeps [{ id := "0", username := "luffy", password := "hashed:meat" }]
      { username := none, password := some "secret" }).store =
      [{ id := "0", username := "luffy", password := "hashed:meat" }] :=
  (signup_missing_field stubDeps
    [{ id := "0", username := "luffy", password := "hashed:meat" }]
    { username := none, password := some "secret" } (Or.inl rfl)).1

/-- C16: a signup whose username is exactly the username of an existing record is
answered with status 400 and the text "User already exists" (no token), and the
credential store is unchanged. -/
theorem signup_duplicate (deps : AuthDeps) (store : CredentialStore)
    (body : Credentials) (u : String) (doc : UserDoc)
    (huser : body.username = some u) (hmem : doc ∈ store) (hname : doc.username = u) :
    (signup deps store body).outcome =
      .responded { status := 400, body := .text "User already exists" } ∧
    (signup deps store body).store = store := by
  obtain ⟨found, hfound⟩ := findOne_isSome_of_mem store u doc hmem hname
  unfold signup
  rw [huser, hfound]
  exact ⟨rfl, rfl⟩

/-- Signing up as "luffy" again, and as "Luffy" for comparison: only the exact
username is refused. -/
theorem signup_duplicate_witness :
    (signup stubDeps [{ id := "0", username := "luffy", password := "hashed:meat" }]
      { username := some "luffy", password := some "other" }).outcome =
      .responded { status := 400, body := .text "User already exists" } ∧
    (signup stubDeps [{ id := "0", username := "luffy", password := "hashed:meat" }]
      { username := some "Luffy", password := some "other" }).store.length = 2 :=
  ⟨(signup_duplicate stubDeps
      [{ id := "0", username := "luffy", password := "hashed:meat" }]
      { username := some "luffy", password := some "other" } "luffy"
      { id := "0", username := "luffy", password := "hashed:meat" } rfl
      (List.mem_singleton.mpr rfl) rfl).1, rfl⟩

/-- C17: a login with a username no record bears and a login with a known username
and a password that does not match its record get the same response: status 400 with
the text "Invalid credentials". -/
theorem login_failures_identical (deps : AuthDeps) (store : CredentialStore)
    (unknown known : Credentials) (u : String) (doc : UserDoc) (password : String)
    (hunknown : ∀ name, unknown.username = some name →
      ∀ d ∈ store, d.username ≠ name)
    (hknown : known.username = some u)
    (hrecord : findOne store (some u) = some doc)
    (hpassword : known.password = some password)
    (hwrong : deps.compare password doc.password = false) :
    (login deps store unknown).outcome = (login deps store known).outcome ∧
    (login deps store known).outcome =
      .responded { status := 400, body := .text "Invalid credentials" } := by
  have hnone : findOne store unknown.username = none := by
    cases hname : unknown.username with
    | none => rfl
    | some name =>
      simp only [findOne, List.find?_eq_none]
      intro d hd
      simpa using hunknown name hname d hd
  have h1 : (login deps store unknown).outcome =
      .responded { status := 400, body := .text "Invalid credentials" } := by
    unfold login
    rw [hnone]
  have h2 : (login deps store known).outcome =
      .responded { status := 400, body := .text "Invalid credentials" } := by
    unfold login
    rw [hknown, hrecord]
    simp only [hpassword, hwrong]
    rfl
  exact ⟨h1.trans h2.symm, h2⟩

/-- Logging in as the unknown "zoro" and as "luffy" with the wrong password. -/
theorem login_failures_identical_witness :
    (login stubDeps [{ id := "0", username := "luffy", password := "hashed:meat" }]
      { username := some "zoro", password := some "meat" }).outcome =
    (login stubDeps [{ id := "0", username := "luffy", password := "hashed:meat" }]
      { username := some "luffy", password := some "fish" }).outcome :=
  (login_failures_identical stubDeps
    [{ id := "0", username := "luffy", password := "hashed:meat" }]
    { username := some "zoro", password := some "meat" }
    { username := some "luffy", password := some "fish" } "luffy"
    { id := "0", username := "luffy", password := "hashed:meat" } "fish"
    (by
      intro name hname d hd
      cases hname
      rw [List.mem_singleton.mp hd]
      decide)
    rfl rfl rfl (by decide)).1

/-! ## The protected probe -/

/-- C18: without an Authorization header the probe answers 401 "Token required"; when
a token is extracted and its verification fails, 401 "Invalid or expired token"; when
its verification succeeds, 200 with the decoded payload as the `user` field. -/
theorem protectedRoute_cases (deps : AuthDeps) :
    protectedRoute deps none = { status := 401, body := .text "Token required" } ∧
    (∀ header token, headerToken (some header) = some token → token ≠ "" →
      deps.verify token = none →
        protectedRoute deps (some header) =
          { status := 401, body := .text "Invalid or expired token" }) ∧
    (∀ header token decoded, headerToken (some header) = some token → token ≠ "" →
      deps.verify token = some decoded →
        protectedRoute deps (some header) =
          { status := 200
            body := .json (obj [("message", str "This is a protected route"),
              ("user", decoded)]) }) := by
  refine ⟨rfl, fun header token htoken hne hverify => ?_,
    fun header token decoded htoken hne hverify => ?_⟩
  · unfold protectedRoute
    rw [htoken]
    simp [hne, hverify]
  · unfold protectedRoute
    rw [htoken]
    simp [hne, hverify]

/-- The header "Bearer valid-token" is answered with the decoded payload, and
"Bearer stale" with 401. -/
theorem protectedRoute_cases_witness :
    protectedRoute stubDeps (some "Bearer valid-token") =
      { status := 200
        body := .json (obj [("message", str "This is a protected route"),
          ("user", obj [("id", str "0"), ("username", str "luffy")])]) } ∧
    protectedRoute stubDeps (some "Bearer stale") =
      { status := 401, body := .text "Invalid or expired token" } :=
  ⟨(protectedRoute_cases stubDeps).2.2 "Bearer valid-token" "valid-token"
      (obj [("id", str "0"), ("username", str "luffy")]) rfl (by decide) rfl,
    (protectedRoute_cases stubDeps).2.1 "Bearer stale" "stale" rfl (by decide) rfl⟩

/-- C19, as stated, fails: the header "Basic valid-token", whose first word is not
"Bearer", is answered with the success response. -/
theorem protectedRoute_accepts_other_scheme :
    (jsSplit ' ' "Basic valid-token")[0]? = some "Basic" ∧
    protectedRoute stubDeps (some "Basic valid-token") =
      { status := 200
        body := .json (obj [("message", str "This is a protected route"),
          ("user", obj [("id", str "0"), ("username", str "luffy")])]) } :=
  ⟨rfl, rfl⟩

/-- C19, amended: the probe answers with success exactly when the second
space-separated word of the Authorization header is a non-empty token that verifies;
the first word plays no part. -/
theorem protectedRoute_success_iff (deps : AuthDeps) (authorization : Option String) :
    (protectedRoute deps authorization).status = 200 ↔
      ∃ header token decoded, authorization = some header ∧
        (jsSplit ' ' header)[1]? = some token ∧ token ≠ "" ∧
        deps.verify token = some decoded := by
  constructor
  · intro h
    cases authorization with
    | none => simp [protectedRoute, headerToken] at h
    | some header =>
      cases htoken : (jsSplit ' ' header)[1]? with
      | none => simp [protectedRoute, headerToken, htoken] at h
      | some token =>
        by_cases hne : token = ""
        · simp [protectedRoute, headerToken, htoken, hne] at h
        · cases hverify : deps.verify token with
          | none => simp [protectedRoute, headerToken, htoken, hne, hverify] at h
          | some decoded => exact ⟨header, token, decoded, rfl, htoken, hne, hverify⟩
  · rintro ⟨header, token, decoded, rfl, htoken, hne, hverify⟩
    simp [protectedRoute, headerToken, htoken, hne, hverify]

/-- The header "Token valid-token" succeeds and the bare header "valid-token" does
not. -/
theorem protectedRoute_success_iff_witness :
    (protectedRoute stubDeps (some "Token valid-token")).status = 200 ∧
    (protectedRoute stubDeps (some "valid-token")).status ≠ 200 :=
  ⟨(protectedRoute_success_iff stubDeps (some "Token valid-token")).mpr
      ⟨"Token valid-token", "valid-token", obj [("id", str "0"), ("username", str "luffy")],
        rfl, rfl, by decide, rfl⟩,
    by decide⟩

/-! ## The country-guide guard -/

/-- Past the guard: for a non-empty string `country` the handler makes one call of the
generation API, with the prompt for that country. -/
theorem countryGuide_prompts_of_name (generate : Generate) (body : JSValue)
    (name : String) (hcountry : member body "country" = .ok (str name))
    (hne : name ≠ "") :
    (countryGuide generate body).prompts = [countryGuidePrompt name] := by
  have hguard : (!(str name).truthy || !(str name).isString) = false := by
    simp [truthy, isString, hne]
  unfold countryGuide
  rw [hcountry]
  simp only [hguard, toJSString]
  cases hgen : generate (countryGuidePrompt name) with
  | ok text => simp
  | error message => simp

/-- C20: on a request body that can be destructured, the handler answers with status
400 without calling the generation API exactly when `country` is missing, is the empty
string, or is not a string; for a non-empty string it calls the generation API, once,
with the prompt for that country. -/
theorem countryGuide_guard (generate : Generate) (body country : JSValue)
    (hcountry : member body "country" = .ok country) :
    (((∃ r, (countryGuide generate body).outcome = .responded r ∧ r.status = 400) ∧
        (countryGuide generate body).prompts = []) ↔
      (country = undefined ∨ country = str "" ∨ country.isString = false)) ∧
    (∀ name, country = str name → name ≠ "" →
      (countryGuide generate body).prompts = [countryGuidePrompt name]) := by
  constructor
  · constructor
    · rintro ⟨_, hprompts⟩
      cases country with
      | str name =>
        by_cases hname : name = ""
        · exact Or.inr (Or.inl (by rw [hname]))
        · rw [countryGuide_prompts_of_name generate body name hcountry hname] at hprompts
          exact absurd hprompts (List.cons_ne_nil _ _)
      | undefined => exact Or.inl rfl
      | null => exact Or.inr (Or.inr rfl)
      | bool b => exact Or.inr (Or.inr rfl)
      | num n => exact Or.inr (Or.inr rfl)
      | arr xs => exact Or.inr (Or.inr rfl)
      | obj ps => exact Or.inr (Or.inr rfl)
    · intro h
      have hguard : (!country.truthy || !country.isString) = true := by
        rcases h with h | h | h
        · rw [h]; rfl
        · rw [h]; rfl
        · rw [h]; simp
      unfold countryGuide
      rw [hcountry]
      simp [hguard]
  · intro name hname hne
    rw [hname] at hcountry
    exact countryGuide_prompts_of_name generate body name hcountry hne

/-- A body with `country: "Germany"` reaches the generation API with the prompt for
Germany, and a body without `country` is turned away. -/
theorem countryGuide_guard_witness :
    (countryGuide (fun _ => .ok "Welcome!") (obj [("country", str "Germany")])).prompts =
      [countryGuidePrompt "Germany"] ∧
    (countryGuide (fun _ => .ok "Welcome!") (obj [("traveler", str "Nami")])).prompts =
      [] :=
  ⟨(countryGuide_guard (fun _ => .ok "Welcome!") (obj [("country", str "Germany")])
      (str "Germany") rfl).2 "Germany" rfl (by decide),
    (((countryGuide_guard (fun _ => .ok "Welcome!") (obj [("traveler", str "Nami")])
      undefined rfl).1).mpr (Or.inl rfl)).2⟩

/-! ## The country-guide prompt and failure response -/

/-- C21: for a non-empty string `country` the prompt sent to the generation API is the
template filled with `country`; it contains `country` as a substring, and any two
requests with the same `country` send the same prompt, whatever else their bodies
carry and whatever the generation API answers. -/
theorem countryGuide_prompt (generate1 generate2 : Generate) (body1 body2 : JSValue)
    (name : String)
    (hbody1 : member body1 "country" = .ok (str name))
    (hbody2 : member body2 "country" = .ok (str name))
    (hne : name ≠ "") :
    (countryGuide generate1 body1).prompts = [countryGuidePrompt name] ∧
    (countryGuide generate2 body2).prompts = (countryGuide generate1 body1).prompts ∧
    ∃ before after, countryGuidePrompt name = before ++ name ++ after := by
  have h1 := countryGuide_prompts_of_name generate1 body1 name hbody1 hne
  have h2 := countryGuide_prompts_of_name generate2 body2 name hbody2 hne
  refine ⟨h1, h2.trans h1.symm, ?_⟩
  refine ⟨"\nYou are Luffy the Guider, a cheerful and friendly local guide from ",
    ". 🌍🎒\n\nPlease introduce " ++ name ++
    " in a fun and engaging way! Include:\n" ++
    "- Keep it short and sweet and only one paragraph\n" ++
    "- A warm welcome message 🌞\n" ++
    "- Important facts about " ++ name ++ "\n" ++
    "- Places we can visit inj this country :" ++ name ++ " \n" ++
    "- A fun cultural greeting or tradition 🙌\n" ++
    "- Something unique about its people or food 🍜\n\n" ++
    "Use warm and welcoming language, with emojis and a personal tone. " ++
    "Avoid boring facts — keep it sweet and exciting! 🤩\n", ?_⟩
  simp only [countryGuidePrompt, String.append_assoc]

/-- Two requests for Germany, one of them carrying a `traveler` field. -/
theorem countryGuide_prompt_witness :
    (countryGuide (fun _ => .ok "Welcome!")
      (obj [("country", str "Germany"), ("traveler", str "Nami")])).prompts =
    (countryGuide (fun _ => .error "quota exceeded")
      (obj [("country", str "Germany")])).prompts :=
  (countryGuide_prompt (fun _ => .error "quota exceeded") (fun _ => .ok "Welcome!")
    (obj [("country", str "Germany")])
    (obj [("country", str "Germany"), ("traveler", str "Nami")]) "Germany"
    rfl rfl (by decide)).2.1

/-- C22, as stated, fails: two upstream errors with different messages give two
different response bodies, each carrying the upstream message in its `message`
field. -/
theorem countryGuide_failure_leaks_message :
    (countryGuide (fun _ => .error "429 quota exceeded for project 1234")
      (obj [("country", str "Germany")])).outcome =
      .responded { status := 500, body := .json (obj [
        ("error", str "Something went wrong while generating the country guide."),
        ("message", str "429 quota exceeded for project 1234")]) } ∧
    (countryGuide (fun _ => .error "fetch failed")
      (obj [("country", str "Germany")])).outcome =
      .responded { status := 500, body := .json (obj [
        ("error", str "Something went wrong while generating the country guide."),
        ("message", str "fetch failed")]) } ∧
    (countryGuide (fun _ => .error "429 quota exceeded for project 1234")
      (obj [("country", str "Germany")])).outcome ≠
    (countryGuide (fun _ => .error "fetch failed")
      (obj [("country", str "Germany")])).outcome := by
  refine ⟨rfl, rfl, ?_⟩
  intro h
  have h1 :
      (Outcome.responded { status := 500, body := .json (obj [
        ("error", str "Something went wrong while generating the country guide."),
        ("message", str "429 quota exceeded for project 1234")]) }) =
      .responded { status := 500, body := .json (obj [
        ("error", str "Something went wrong while generating the country guide."),
        ("message", str "fetch failed")]) } := h
  simp at h1

/-- C22, amended: when the generation API call fails, the handler responds with status
500 and a body whose `error` field is the fixed text "Something went wrong while
generating the country guide." and whose `message` field is the message of the
upstream error. -/
theorem countryGuide_failure (generate : Generate) (body : JSValue) (name message : String)
    (hbody : member body "country" = .ok (str name)) (hne : name ≠ "")
    (hfails : generate (countryGuidePrompt name) = .error message) :
    (countryGuide generate body).outcome =
      .responded { status := 500, body := .json (obj [
        ("error", str "Something went wrong while generating the country guide."),
        ("message", str message)]) } := by
  have hguard : (!(str name).truthy || !(str name).isString) = false := by
    simp [truthy, isString, hne]
  unfold countryGuide
  rw [hbody]
  simp only [hguard, toJSString, hfails]
  rfl

/-- A failed call for Germany. -/
theorem countryGuide_failure_witness :
    (countryGuide (fun _ => .error "fetch failed")
      (obj [("country", str "Germany")])).outcome =
      .responded { status := 500, body := .json (obj [
        ("error", str "Something went wrong while generating the country guide."),
        ("message", str "fetch failed")]) } :=
  countryGuide_failure (fun _ => .error "fetch failed") (obj [("country", str "Germany")])
    "Germany" "fetch failed" rfl (by decide) rfl

/-! ## Empty `languages` -/

/-- C29: when `languages` is present as an empty object, the formatted `languages` is
the empty string, not `"N/A"`. -/
theorem formatCountry_languages_empty (ps : List (String × JSValue))
    (hlang : lookup "languages" ps = obj []) :
    ∃ c, formatCountry (obj ps) = .ok c ∧
      c.languages = str "" ∧ c.languages ≠ str "N/A" := by
  refine ⟨_, formatCountry_obj ps, ?_, ?_⟩
  · simp [hlang, truthy, objectValues, joinWith]
  · simp [hlang, truthy, objectValues, joinWith]

/-- An uninhabited territory listed with `languages: {}`. -/
theorem formatCountry_languages_empty_witness :
    ∃ c, formatCountry (obj [("name", obj [("common", str "Antarctica")]),
        ("languages", obj [])]) = .ok c ∧ c.languages = str "" :=
  let ⟨c, hc, hempty, _⟩ := formatCountry_languages_empty
    [("name", obj [("common", str "Antarctica")]), ("languages", obj [])] rfl
  ⟨c, hc, hempty⟩

/-! ## The page invariant under clicks -/

/-- On a page between 1 and `totalPages` the visible slice has a row. -/
theorem paginatedCountries_ne_nil (st : TableState)
    (hlow : 1 ≤ st.currentPage) (hhigh : st.currentPage ≤ totalPages st) :
    paginatedCountries st ≠ [] := by
  obtain ⟨p, hp⟩ := Int.eq_ofNat_of_zero_le (by omega : (0 : Int) ≤ st.currentPage)
  have hstart : (p - 1) * 5 < st.countries.length := by
    simp only [totalPages, jsCeilDiv, ITEMS_PER_PAGE] at hhigh
    omega
  have h := jsSlice_nat st.countries ((p - 1) * 5) (p * 5) (Nat.le_of_lt hstart)
  have e1 : startIndex st = (((p - 1) * 5 : Nat) : Int) := by
    simp only [startIndex, hp, ITEMS_PER_PAGE]
    omega
  have e2 : startIndex st + (ITEMS_PER_PAGE : Int) = ((p * 5 : Nat) : Int) := by
    simp only [startIndex, hp, ITEMS_PER_PAGE]
    omega
  intro hnil
  have hlen : (paginatedCountries st).length = 0 := by rw [hnil]; rfl
  rw [paginatedCountries, e2, e1, h, List.length_take, List.length_drop] at hlen
  omega

/-- A click changes neither the listing nor the bounds `1 ≤ currentPage ≤ totalPages`. -/
theorem click_preserves (st : TableState) (c : PageClick)
    (hlow : 1 ≤ st.currentPage) (hhigh : st.currentPage ≤ totalPages st) :
    (click st c).countries = st.countries ∧
    1 ≤ (click st c).currentPage ∧ (click st c).currentPage ≤ totalPages (click st c) := by
  cases c with
  | previous =>
    by_cases hd : st.currentPage = 1
    · simp [click, clickPrevious, previousDisabled, hd] at hlow hhigh ⊢
      omega
    · have hcs : (click st .previous) = { st with currentPage := st.currentPage - 1 } := by
        simp [click, clickPrevious, previousDisabled, hd]
      rw [hcs]
      refine ⟨rfl, ?_, ?_⟩
      · show 1 ≤ st.currentPage - 1
        omega
      · show st.currentPage - 1 ≤ totalPages st
        omega
  | next =>
    by_cases hd : st.currentPage = totalPages st
    · have hcs : (click st .next) = st := by
        simp [click, clickNext, nextDisabled, hd]
      rw [hcs]
      exact ⟨rfl, hlow, hhigh⟩
    · have hcs : (click st .next) = { st with currentPage := st.currentPage + 1 } := by
        simp [click, clickNext, nextDisabled, hd]
      rw [hcs]
      refine ⟨rfl, ?_, ?_⟩
      · show 1 ≤ st.currentPage + 1
        omega
      · show st.currentPage + 1 ≤ totalPages st
        omega

/-- Any sequence of clicks keeps the listing and the bounds. -/
theorem clicks_preserve (cs : List PageClick) :
    ∀ st : TableState, 1 ≤ st.currentPage → st.currentPage ≤ totalPages st →
      (clicks st cs).countries = st.countries ∧
      1 ≤ (clicks st cs).currentPage ∧
      (clicks st cs).currentPage ≤ totalPages (clicks st cs) := by
  induction cs with
  | nil => intro st hlow hhigh; exact ⟨rfl, hlow, hhigh⟩
  | cons c rest ih =>
    intro st hlow hhigh
    obtain ⟨hsame, hlow1, hhigh1⟩ := click_preserves st c hlow hhigh
    obtain ⟨hsame2, hlow2, hhigh2⟩ := ih (click st c) hlow1 hhigh1
    exact ⟨hsame2.trans hsame, hlow2, hhigh2⟩

/-- C30: for a non-empty listing of `n` results, starting on page 1, after any finite
sequence of "Previous" and "Next" clicks (a click on a disabled button doing nothing)
the listing is the same, the current page is between 1 and `ceil(n / 5)`, and the
visible slice is not empty. -/
theorem pagination_invariant (st : TableState) (cs : List PageClick)
    (hne : st.countries ≠ []) (hstart : st.currentPage = 1) :
    (clicks st cs).countries = st.countries ∧
    1 ≤ (clicks st cs).currentPage ∧
    (clicks st cs).currentPage ≤ ⌈(st.countries.length : ℚ) / 5⌉ ∧
    paginatedCountries (clicks st cs) ≠ [] := by
  have hn : 0 < st.countries.length := List.length_pos.mpr hne
  have hhigh : st.currentPage ≤ totalPages st := by
    rw [hstart]
    simp only [totalPages, jsCeilDiv, ITEMS_PER_PAGE]
    omega
  obtain ⟨hsame, hlow', hhigh'⟩ := clicks_preserve cs st (by omega) hhigh
  have hceil : totalPages (clicks st cs) = ⌈(st.countries.length : ℚ) / 5⌉ := by
    have h := jsCeilDiv_eq_ceil st.countries.length ITEMS_PER_PAGE (by decide)
    simpa [totalPages, ITEMS_PER_PAGE, hsame] using h
  exact ⟨hsame, hlow', hceil ▸ hhigh', paginatedCountries_ne_nil _ hlow' hhigh'⟩

/-- The six mock countries: Next, Next (disabled on page 2), Previous, Previous
(disabled on page 1), Next ends on page 2 with its one row. -/
theorem pagination_invariant_witness :
    (clicks { countries := mockCountries, searchTerm := "", region := "All",
              currentPage := 1 }
      [.next, .next, .previous, .previous, .next]).currentPage = 2 ∧
    paginatedCountries
      (clicks { countries := mockCountries, searchTerm := "", region := "All",
                currentPage := 1 }
        [.next, .next, .previous, .previous, .next]) ≠ [] :=
  ⟨rfl, (pagination_invariant
    { countries := mockCountries, searchTerm := "", region := "All", currentPage := 1 }
    [.next, .next, .previous, .previous, .next] (by simp [mockCountries]) rfl).2.2.2⟩

/-! ## Client storage -/

/-- After `removeItem(key)` the key is absent. -/
theorem getItem_removeItem_self (storage : Storage) (key : String) :
    getItem (removeItem storage key) key = none := by
  induction storage with
  | nil => rfl
  | cons entry rest ih =>
    obtain ⟨k, v⟩ := entry
    by_cases hk : k = key
    · simpa [removeItem, hk] using ih
    · have hfilter : removeItem ((k, v) :: rest) key = (k, v) :: removeItem rest key := by
        simp [removeItem, hk]
      rw [hfilter, getItem]
      simp [hk, ih]

/-- The call `removeItem(key)` leaves every other key as it was. -/
theorem getItem_removeItem_ne (storage : Storage) (key other : String)
    (hne : other ≠ key) :
    getItem (removeItem storage key) other = getItem storage other := by
  induction storage with
  | nil => rfl
  | cons entry rest ih =>
    obtain ⟨k, v⟩ := entry
    by_cases hk : k = key
    · have hfilter : removeItem ((k, v) :: rest) key = removeItem rest key := by
        simp [removeItem, hk]
      have hother : ¬ k = other := fun h => hne (h.symm.trans hk)
      rw [hfilter, ih, getItem]
      simp [hother]
    · have hfilter : removeItem ((k, v) :: rest) key = (k, v) :: removeItem rest key := by
        simp [removeItem, hk]
      rw [hfilter, getItem, getItem, ih]

/-! ## Session bootstrap (`Home`) -/

/-- C23, as stated, fails: with the empty string stored as token no request is made,
and a probe that succeeds with the body `null` is followed by the removal of the token
and a navigation to /login. -/
theorem homeMount_edge_cases :
    getItem [("token", "")] "token" = some "" ∧
    (homeMount (fun _ => .ok (obj [("message", str "This is a protected route")]))
      [("token", "")]).requests = [] ∧
    (homeMount (fun _ => .ok null) [("token", "mock-token")]).storage = [] ∧
    (homeMount (fun _ => .ok null) [("token", "mock-token")]).navigations = ["/login"] :=
  ⟨rfl, rfl, rfl, rfl⟩

/-- C23, amended: on mount of `Home`, if no token is stored, or the stored token is the
empty string, the effect navigates to /login and makes no request; if a non-empty token
`t` is stored it issues one GET to the protected probe with Authorization
`"Bearer " ++ t`, then on a failure of the probe it removes the stored token and
navigates to /login, and on a success whose body is not `null` it neither changes the
storage nor navigates. -/
theorem homeMount_cases (probe : String → Except CaughtError JSValue) (storage : Storage) :
    ((getItem storage "token" = none ∨ getItem storage "token" = some "") →
      (homeMount probe storage).navigations = ["/login"] ∧
      (homeMount probe storage).requests = [] ∧
      (homeMount probe storage).storage = storage) ∧
    (∀ t, getItem storage "token" = some t → t ≠ "" →
      (homeMount probe storage).requests =
        [.get "http://localhost:5000/protected" ("Bearer " ++ t)] ∧
      (∀ err, probe ("Bearer " ++ t) = .error err →
        (homeMount probe storage).storage = removeItem storage "token" ∧
        (homeMount probe storage).navigations = ["/login"]) ∧
      (∀ data, probe ("Bearer " ++ t) = .ok data → data.isNullish = false →
        (homeMount probe storage).storage = storage ∧
        (homeMount probe storage).navigations = [])) := by
  constructor
  · rintro (h | h)
    · simp [homeMount, h]
    · simp [homeMount, h, itemTruthy]
  · intro t ht hne
    have htruthy : itemTruthy (some t) = true := by simp [itemTruthy, hne]
    refine ⟨?_, fun err herr => ?_, fun data hdata hnull => ?_⟩
    · unfold homeMount
      simp only [ht, htruthy, Bool.not_true, Bool.false_eq_true, if_false]
      cases hprobe : probe ("Bearer " ++ t) with
      | error err => rfl
      | ok data =>
        cases hmessage : member data "message" with
        | error e => simp [hmessage]
        | ok message => simp [hmessage]
    · simp [homeMount, ht, htruthy, herr]
    · cases data with
      | undefined => simp [isNullish] at hnull
      | null => simp [isNullish] at hnull
      | bool b => simp [homeMount, ht, htruthy, hdata, member]
      | num n => simp [homeMount, ht, htruthy, hdata, member]
      | str s => simp [homeMount, ht, htruthy, hdata, member]
      | arr xs => simp [homeMount, ht, htruthy, hdata, member]
      | obj ps => simp [homeMount, ht, htruthy, hdata, member]

/-- The token of the test "makes API call to verify token when token exists". -/
theorem homeMount_cases_witness :
    (homeMount (fun _ => .ok (obj [("message", str "Success")]))
      [("token", "mock-token"), ("username", "luffy")]).requests =
      [.get "http://localhost:5000/protected" "Bearer mock-token"] ∧
    (homeMount (fun _ => .ok (obj [("message", str "Success")]))
      [("token", "mock-token"), ("username", "luffy")]).navigations = [] :=
  ⟨((homeMount_cases (fun _ => .ok (obj [("message", str "Success")]))
      [("token", "mock-token"), ("username", "luffy")]).2 "mock-token" rfl (by decide)).1,
    (((homeMount_cases (fun _ => .ok (obj [("message", str "Success")]))
      [("token", "mock-token"), ("username", "luffy")]).2 "mock-token" rfl
        (by decide)).2.2 (obj [("message", str "Success")]) rfl rfl).2⟩

/-- C24: with a token and a username stored, a probe rejected with status 401 leaves
the username "luffy" in client storage; only the token is removed. -/
theorem homeMount_failure_keeps_username :
    (homeMount
      (fun _ => .error { response := some (401, str "Invalid or expired token") })
      [("token", "expired-token"), ("username", "luffy")]).storage =
      [("username", "luffy")] ∧
    getItem (homeMount
      (fun _ => .error { response := some (401, str "Invalid or expired token") })
      [("token", "expired-token"), ("username", "luffy")]).storage "username" =
      some "luffy" ∧
    getItem (handleLogout [("token", "expired-token"), ("username", "luffy")]).storage
      "username" = none :=
  ⟨rfl, rfl, rfl⟩

/-! ## `Header` -/

/-- C25: `handleLogout` leaves storage with neither a token nor a username, leaves
every other key as it was, and navigates to /login. -/
theorem handleLogout_frame (storage : Storage) :
    getItem (handleLogout storage).storage "token" = none ∧
    getItem (handleLogout storage).storage "username" = none ∧
    (∀ key, key ≠ "token" → key ≠ "username" →
      getItem (handleLogout storage).storage key = getItem storage key) ∧
    (handleLogout storage).navigations = ["/login"] := by
  refine ⟨?_, ?_, fun key htoken huser => ?_, rfl⟩
  · show getItem (removeItem (removeItem storage "token") "username") "token" = none
    rw [getItem_removeItem_ne _ _ _ (by decide), getItem_removeItem_self]
  · exact getItem_removeItem_self _ _
  · show getItem (removeItem (removeItem storage "token") "username") key = _
    rw [getItem_removeItem_ne _ _ _ huser, getItem_removeItem_ne _ _ _ htoken]

/-- The storage of the test "handles logout correctly", with one more key. -/
theorem handleLogout_frame_witness :
    getItem (handleLogout
      [("token", "mock-token"), ("theme", "dark"), ("username", "testuser")]).storage
      "theme" = some "dark" ∧
    getItem (handleLogout
      [("token", "mock-token"), ("theme", "dark"), ("username", "testuser")]).storage
      "username" = none :=
  ⟨((handleLogout_frame
      [("token", "mock-token"), ("theme", "dark"), ("username", "testuser")]).2.2.1
      "theme" (by decide) (by decide)).trans rfl,
    (handleLogout_frame
      [("token", "mock-token"), ("theme", "dark"), ("username", "testuser")]).2.1⟩

/-- A non-empty string has a first UTF-16 code unit; when its first character lies in
the Basic Multilingual Plane that unit is the character and the other units are those
of the remaining characters. -/
theorem utf16_of_ne_empty (u : String) (hne : u ≠ "") :
    ∃ first rest, utf16 u = first :: rest ∧
      ∀ c cs, u.toList = c :: cs → c.toNat < 0x10000 →
        first = c.toNat ∧ rest = utf16 (String.mk cs) := by
  cases hu : u.toList with
  | nil =>
    exfalso
    apply hne
    have : u = String.mk u.toList := rfl
    rw [this, hu]
  | cons c cs =>
    have hd : u.data = c :: cs := hu
    by_cases hc : c.toNat < 0x10000
    · refine ⟨c.toNat, utf16 (String.mk cs), ?_, ?_⟩
      · simp [utf16, String.toList, hd, hc]
      · intro c2 cs2 h _
        simp only [List.cons.injEq] at h
        rw [← h.1, ← h.2]
        exact ⟨rfl, rfl⟩
    · refine ⟨0xD800 + (c.toNat - 0x10000) / 0x400,
        (0xDC00 + (c.toNat - 0x10000) % 0x400) :: utf16 (String.mk cs), ?_, ?_⟩
      · simp [utf16, String.toList, hd, hc]
      · intro c2 cs2 h hc2
        simp only [List.cons.injEq] at h
        rw [← h.1] at hc2
        exact absurd hc2 hc

/-- C26: for a non-empty stored username `u` the display name is the upper-cased first
character of `u` (its first UTF-16 code unit, which is how `charAt` counts characters)
followed by the rest of `u` unchanged; when the stored username is empty or absent the
display name is "Guest". -/
theorem getUserDisplayName_cases (toUpperCase : List Nat → List Nat) (storage : Storage) :
    (∀ u, getItem storage "username" = some u → u ≠ "" →
      ∃ first rest, utf16 u = first :: rest ∧
        getUserDisplayName toUpperCase (headerMount storage).username =
          toUpperCase [first] ++ rest ∧
        ∀ c cs, u.toList = c :: cs → c.toNat < 0x10000 →
          first = c.toNat ∧ rest = utf16 (String.mk cs)) ∧
    ((getItem storage "username" = none ∨ getItem storage "username" = some "") →
      getUserDisplayName toUpperCase (headerMount storage).username = utf16 "Guest") := by
  constructor
  · intro u hu hne
    obtain ⟨first, rest, hunits, hbmp⟩ := utf16_of_ne_empty u hne
    refine ⟨first, rest, hunits, ?_, hbmp⟩
    have hstate : (headerMount storage).username = u := by
      simp [headerMount, hu, itemTruthy, hne]
    rw [hstate]
    simp [getUserDisplayName, hne, hunits]
  · rintro (h | h)
    · have hstate : (headerMount storage).username = "" := by simp [headerMount, h]
      rw [hstate]
      rfl
    · have hstate : (headerMount storage).username = "" := by
        simp [headerMount, h, itemTruthy]
      rw [hstate]
      rfl

/-- The username of the test "displays capitalized username from localStorage":
"luffy" is shown as "Luffy". -/
theorem getUserDisplayName_cases_witness :
    getUserDisplayName asciiUpperCase (headerMount [("username", "luffy")]).username =
      utf16 "Luffy" :=
  match (getUserDisplayName_cases asciiUpperCase [("username", "luffy")]).1 "luffy" rfl
    (by decide) with
  | ⟨_, _, hunits, hname, _⟩ => by
    have h : utf16 "luffy" = 108 :: [117, 102, 102, 121] := by decide
    rw [h] at hunits
    simp only [List.cons.injEq] at hunits
    rw [hname, ← hunits.1, ← hunits.2]
    decide

/-! ## Signup and login pages -/

/-- C27: after a signup that succeeds from empty client storage, whatever username and
password were entered, storage holds the returned token and no username, the page
navigates to "/", and the mount check of the `Header` shown there finds no username
and navigates to /login. -/
theorem handleSignup_then_header (post : JSValue → Except CaughtError JSValue)
    (form : SignupForm) (data token : JSValue)
    (hconfirm : form.password = form.confirmPassword)
    (hpost : post (obj [("username", str form.username), ("password", str form.password)])
      = .ok data)
    (htoken : member data "token" = .ok token) :
    (handleSignup post form []).storage = [("token", toJSString token)] ∧
    getItem (handleSignup post form []).storage "token" = some (toJSString token) ∧
    getItem (handleSignup post form []).storage "username" = none ∧
    (handleSignup post form []).navigations = ["/"] ∧
    (headerMount (handleSignup post form []).storage).navigations = ["/login"] := by
  have hguard : (form.password != form.confirmPassword) = false := by
    simp [hconfirm]
  have hstorage : (handleSignup post form []).storage = [("token", toJSString token)] := by
    unfold handleSignup
    simp only [hguard, hpost, htoken]
    rfl
  have hnav : (handleSignup post form []).navigations = ["/"] := by
    unfold handleSignup
    simp only [hguard, hpost, htoken]
    rfl
  refine ⟨hstorage, ?_, ?_, hnav, ?_⟩
  · rw [hstorage]; simp [getItem]
  · rw [hstorage]; simp [getItem]
  · rw [hstorage]; simp [headerMount, getItem]

/-- A signup as "luffy" answered by the backend with 201 and a token. -/
theorem handleSignup_then_header_witness :
    (handleSignup (fun _ => axiosOutcome
        { status := 201, body := .json (obj [("token", str "token:0:luffy")]) })
      { username := "luffy", password := "meat", confirmPassword := "meat" } []).storage =
      [("token", "token:0:luffy")] ∧
    (headerMount (handleSignup (fun _ => axiosOutcome
        { status := 201, body := .json (obj [("token", str "token:0:luffy")]) })
      { username := "luffy", password := "meat", confirmPassword := "meat" }
      []).storage).navigations = ["/login"] :=
  have h := handleSignup_then_header (fun _ => axiosOutcome
      { status := 201, body := .json (obj [("token", str "token:0:luffy")]) })
    { username := "luffy", password := "meat", confirmPassword := "meat" }
    (obj [("token", str "token:0:luffy")]) (str "token:0:luffy") rfl rfl rfl
  ⟨h.1, h.2.2.2.2⟩

/-- The login handler answers a failed attempt in one way only. -/
theorem login_failure_response (deps : AuthDeps) (store : CredentialStore)
    (body : Credentials) (r : Response)
    (hr : (login deps store body).outcome = .responded r) (hfail : r.status ≠ 200) :
    r = { status := 400, body := .text "Invalid credentials" } := by
  unfold login at hr
  split at hr
  · exact (Outcome.responded.inj hr).symm
  · split at hr
    · exact Outcome.noConfusion hr
    · split at hr
      · have h := Outcome.responded.inj hr
        rw [← h] at hfail
        exact absurd rfl hfail
      · exact (Outcome.responded.inj hr).symm

/-- C28: for every failed response the backend's login handler produces (status 400
with the text "Invalid credentials"), the login page sets the error to the fallback
"Login failed", not to the server's text, leaves client storage unchanged and does not
navigate. -/
theorem handleLogin_failed (deps : AuthDeps) (store : CredentialStore)
    (body : Credentials) (r : Response) (form : LoginForm) (storage : Storage)
    (hr : (login deps store body).outcome = .responded r) (hfail : r.status ≠ 200) :
    r = { status := 400, body := .text "Invalid credentials" } ∧
    (handleLogin (fun _ => axiosOutcome r) form storage).error =
      some (str "Login failed") ∧
    (handleLogin (fun _ => axiosOutcome r) form storage).error ≠
      some (str "Invalid credentials") ∧
    (handleLogin (fun _ => axiosOutcome r) form storage).storage = storage ∧
    (handleLogin (fun _ => axiosOutcome r) form storage).navigations = [] := by
  have hresp := login_failure_response deps store body r hr hfail
  subst hresp
  refine ⟨rfl, rfl, ?_, rfl, rfl⟩
  intro h
  have h2 : some (str "Login failed") = some (str "Invalid credentials") := h
  simp at h2

/-- Logging in as "luffy" with the wrong password. -/
theorem handleLogin_failed_witness :
    (handleLogin (fun _ => axiosOutcome { status := 400, body := .text "Invalid credentials" })
      { username := "luffy", password := "fish" } [("theme", "dark")]).error =
      some (str "Login failed") :=
  (handleLogin_failed stubDeps
    [{ id := "0", username := "luffy", password := "hashed:meat" }]
    { username := some "luffy", password := some "fish" }
    { status := 400, body := .text "Invalid credentials" }
    { username := "luffy", password := "fish" } [("theme", "dark")] rfl (by decide)).2.1

end CountryGuide
